import Mathlib

/-!
Verification development for the Just-Another-Cellular-Automata simulation
engine.  The Python sources (world.py, food.py, dna.py, cell.py, config.py)
are shallowly embedded below: pure functions become Lean functions, the
mutable world state becomes an explicit `World` record threaded through each
operation, and every call to the `random` module is replaced by an explicit
oracle argument (a function supplying the outcome of each draw), so that
theorems quantify over all possible randomness.

Conventions used throughout:
* Python `int` is `Int`; grid positions are `Int × Int`.
* Python dicts (insertion ordered) are association lists `List (key × value)`;
  `find?` on such a list is `dict.get`, which matches Python because keys are
  unique in every reachable state.
* `random.randint(a, b)` (inclusive) is modelled as `a + raw % (b - a + 1)`
  where `raw : Nat` comes from the oracle; every value in the range is
  realizable, and no value outside it is.
* `random.random() < p` for a probability `p` that is positive (and `< 1`)
  is modelled as an oracle `Bool`; when `p = 0` the comparison is hard-coded
  to `false`, as in the source where the chance is exactly zero.
-/

namespace JACA

/-! ### Configuration constants (config.py) -/

namespace Config

def STARTING_ENERGY : Int := 200

def ENERGY_DRAIN_INTERVAL : Nat := 30

def GENOME_ENERGY_COST : Int := 1

def MOVEMENT_COST : Int := 1

def REPRODUCTION_COST : Int := 80

def REPRODUCTION_THRESHOLD : Int := 250

def FOOD_ENERGY : Int := 25

def DECAY_FOOD_ENERGY : Int := 15

def MAX_CELLS_PER_LOCATION : Nat := 1

end Config

/-! ### Genome codec (dna.py)

`re.findall(r'\[([^\]]+)\]', genome)` collects, left to right, every
bracketed token with a non-empty body of non-`]` characters.  The regex
engine scans for a `[`, greedily takes the following non-`]` characters,
and requires a closing `]`; if the body would be empty or unterminated the
engine moves one position forward.  Because the body may not contain `]`,
no backtracking ever changes the result, so the scan is equivalent to the
single-pass state machine below (`none` = outside a token, `some acc` =
inside a token with body `acc` so far). -/

def tokensAux : List Char → Option (List Char) → List (List Char)
  | [], _ => []
  | c :: rest, none =>
      if c = '[' then tokensAux rest (some []) else tokensAux rest none
  | c :: rest, some acc =>
      if c = ']' then
        if acc.isEmpty then tokensAux rest none
        else acc :: tokensAux rest none
      else tokensAux rest (some (acc ++ [c]))

/-- All bracket-delimited trait tokens of a genome, in left-to-right order,
duplicates preserved: the embedding of `self.trait_pattern.findall(genome)`. -/
def findall (genome : String) : List String :=
  (tokensAux genome.data none).map (fun l => String.mk l)

/-- DNAParser.parse (dna.py:13-33): `None` if no token was found or the
literal token `Cell` is missing, otherwise the token list. -/
def parse (genome : String) : Option (List String) :=
  let ms := findall genome
  if ms.isEmpty then none
  else if ("Cell" : String) ∈ ms then some ms
  else none

/-- Python truthiness applied to an optional list: both `None` and an empty
list are falsy.  Call sites in world.py test `if not traits:` /
`if new_traits:`, so they go through this adapter. -/
def truthy : Option (List String) → Option (List String)
  | some [] => none
  | x => x

/-- The fixed alphabet for point mutations (dna.py:59). -/
def MUTATION_ALPHABET : List Char :=
  ("ABCDEFGHIJKLMNOPQRSTUVWXYZabcdefghijklmnopqrstuvwxyz:[]").data

/-- The fixed catalog of insertable traits (dna.py:68). -/
def INSERT_TRAIT_CATALOG : List String :=
  [("[CanMove]"), ("[CanEat]"), ("[Color:Red]"), ("[Color:Blue]")]

/-- Remove the first occurrence of `pat` from `s`:
`genome.replace(pat, "", 1)` for a non-empty pattern. -/
def removeFirst : List Char → List Char → List Char
  | [], _ => []
  | c :: rest, pat =>
      if pat.isPrefixOf (c :: rest) then (c :: rest).drop pat.length
      else c :: removeFirst rest pat

/-- Outcomes of the random draws inside one `DNAParser.mutate` call
(dna.py:35-92).  `no_mutation` is the outcome of `random.random() > rate`
(both outcomes are realizable for the rate 0.01 used by every caller);
`kind` selects among point/insert/delete (`random.choices` with positive
weights 0.7/0.2/0.1 can return each of the three); the remaining raw values
are reduced modulo the relevant range exactly as `randint`/`choice` would
bound them. -/
structure MutOracle where
  no_mutation : Bool
  kind : Nat
  pos : Nat
  charIdx : Nat
  traitIdx : Nat

/-- DNAParser.mutate (dna.py:35-92). -/
def mutate (genome : String) (o : MutOracle) : String :=
  if o.no_mutation then genome
  else
    match o.kind % 3 with
    | 0 =>
        -- point mutation: replace one character, no-op on the empty genome
        if genome.length = 0 then genome
        else
          let p := o.pos % genome.length
          let c := MUTATION_ALPHABET.getD (o.charIdx % MUTATION_ALPHABET.length) 'A'
          String.mk (genome.data.set p c)
    | 1 =>
        -- insert mutation: append one trait token from the fixed catalog
        genome ++ INSERT_TRAIT_CATALOG.getD (o.traitIdx % 4) ("")
    | _ =>
        -- delete mutation: drop one non-Cell token, first occurrence
        let traits := findall genome
        if traits.length ≤ 1 then genome
        else
          let removable := traits.filter (fun t => t ≠ "Cell")
          if removable.isEmpty then genome
          else
            let remove := removable.getD (o.traitIdx % removable.length) ("")
            String.mk (removeFirst genome.data (('[' :: remove.data) ++ [']']))

/-- C7: `parse(genome)` succeeds iff the genome contains at least one
bracket-delimited token and one of those tokens is exactly `Cell`; on
success it returns all tokens in left-to-right order with duplicates
preserved (i.e. exactly `findall genome`); and the three concrete examples
from the spec: `parse("[Cell][CanMove]") = ["Cell","CanMove"]`,
`parse("[CanMove]") = None`, `parse("") = None`. -/
theorem c7_parse_spec :
    (∀ g : String, (parse g).isSome ↔ (findall g ≠ [] ∧ ("Cell" : String) ∈ findall g)) ∧
    (∀ g : String, ∀ ts : List String, parse g = some ts → ts = findall g) ∧
    parse ("[Cell][CanMove]") = some [("Cell" : String), ("CanMove" : String)] ∧
    parse ("[CanMove]") = none ∧
    parse ("") = none := by
  refine ⟨?_, ?_, by decide, by decide, by decide⟩
  · intro g
    unfold parse
    by_cases h1 : (findall g).isEmpty
    · simp [h1, List.isEmpty_iff.mp h1]
    · have h1' : findall g ≠ [] := by simpa [List.isEmpty_iff] using h1
      by_cases h2 : ("Cell" : String) ∈ findall g
      · simp [h1, h1', h2]
      · simp [h1, h2]
  · intro g ts h
    unfold parse at h
    by_cases h1 : (findall g).isEmpty
    · simp [h1] at h
    · by_cases h2 : ("Cell" : String) ∈ findall g
      · simp [h1, h2] at h
        exact h.symm
      · simp [h1, h2] at h

/-- Witness for C7 at a concrete genome. -/
theorem c7_parse_spec_witness : ([("Cell" : String)] : List String) = findall ("[Cell]") :=
  c7_parse_spec.2.1 ("[Cell]") [("Cell" : String)] (by decide)

/-! ### Food field (food.py)

`food_grid` is a `dok_matrix` of 0/1 flags (assigning 0 deletes the key, so
it is the list of positions currently set to 1, in insertion order) and
`food_energy` is a Python dict keyed by position. -/

abbrev Pos := Int × Int

structure FoodSystem where
  width : Int
  height : Int
  food_grid : List Pos
  food_energy : List (Pos × Int)
deriving Repr, DecidableEq

/-- `self.food_energy.get((x, y))` — first entry with the key. -/
def lookupEnergy (l : List (Pos × Int)) (p : Pos) : Option Int :=
  (l.find? (fun e => e.1 = p)).map (fun e => e.2)

/-- `self.food_energy[(x, y)] = energy` — overwrite in place if the key is
present, otherwise append (Python dicts keep insertion order). -/
def updateEnergy (l : List (Pos × Int)) (p : Pos) (v : Int) : List (Pos × Int) :=
  if l.any (fun e => e.1 = p) then l.map (fun e => if e.1 = p then (p, v) else e)
  else l ++ [(p, v)]

/-- FoodSystem.spawn_food (food.py:38-52): silent no-op out of bounds,
otherwise set the grid flag and the energy value (overwriting). -/
def FoodSystem.spawn_food (fs : FoodSystem) (x y : Int) (energy : Int) : FoodSystem :=
  if 0 ≤ x ∧ x < fs.width ∧ 0 ≤ y ∧ y < fs.height then
    { fs with
      food_grid := if ((x, y) : Pos) ∈ fs.food_grid then fs.food_grid else fs.food_grid ++ [(x, y)],
      food_energy := updateEnergy fs.food_energy (x, y) energy }
  else fs

/-- FoodSystem.eat_food (food.py:54-65): if food is present, remove it from
both maps and return its energy, else return 0. -/
def FoodSystem.eat_food (fs : FoodSystem) (x y : Int) : Int × FoodSystem :=
  match lookupEnergy fs.food_energy (x, y) with
  | some e =>
      (e, { fs with
            food_energy := fs.food_energy.filter (fun q => q.1 ≠ (x, y)),
            food_grid := fs.food_grid.filter (fun p => p ≠ (x, y)) })
  | none => (0, fs)

/-- The 8-neighborhood offsets in the iteration order of the nested
`for dx in [-1,0,1]: for dy in [-1,0,1]` loops, skipping (0,0). -/
def MOORE_DELTAS : List Pos :=
  [(-1, -1), (-1, 0), (-1, 1), (0, -1), (0, 1), (1, -1), (1, 0), (1, 1)]

/-- Occupied Moore-neighbor count used by regenerate (food.py:80-87). -/
def FoodSystem.neighborCount (fs : FoodSystem) (x y : Int) : Nat :=
  (MOORE_DELTAS.filter (fun d => ((x + d.1, y + d.2) : Pos) ∈ fs.food_grid)).length

/-- Outcomes of the random draws of one `regenerate` call: per check index,
the two raw `randint` values for the sampled interior position and the
outcome of `random.random() < regeneration_chance` (only consulted when the
chance is positive, i.e. when the neighbor count is 1, 2 or 3; a zero chance
never spawns, which the code below hard-wires just as the source's
`regeneration_chance > 0 and ...` guard does). -/
structure RegenOracle where
  sampleX : Nat → Nat
  sampleY : Nat → Nat
  draw : Nat → Bool

/-- `check_count = min(200, max(100, len(self.food_energy) // 2))`. -/
def FoodSystem.check_count (fs : FoodSystem) : Nat :=
  min 200 (max 100 (fs.food_energy.length / 2))

/-- The interior cell sampled at check index `i`:
`x = random.randint(1, width-2)`, `y = random.randint(1, height-2)`
(requires width, height ≥ 3, as in every world the program builds). -/
def FoodSystem.regenSample (fs : FoodSystem) (o : RegenOracle) (i : Nat) : Pos :=
  (1 + ((o.sampleX i : Int) % (fs.width - 2)), 1 + ((o.sampleY i : Int) % (fs.height - 2)))

/-- The `new_food` list accumulated by regenerate (food.py:66-105): for each
of `check_count` sampled interior cells that are empty, count the occupied
Moore-neighbors; the regeneration chance is `RATE * 0.8` for 2 neighbors,
`RATE` for 3, `RATE * 0.3` for 1 and exactly 0 otherwise, so a spawn can
happen (and, for a suitable draw, does happen) exactly when the neighbor
count is 1, 2 or 3.  Neighbor counts are taken against the grid as it was
when regenerate started, because the spawns happen after the loop. -/
def FoodSystem.new_food (fs : FoodSystem) (o : RegenOracle) : List Pos :=
  (List.range fs.check_count).filterMap (fun i =>
    let p := fs.regenSample o i
    if p ∈ fs.food_grid then none
    else
      let nb := fs.neighborCount p.1 p.2
      if (nb = 1 ∨ nb = 2 ∨ nb = 3) ∧ o.draw i then some p else none)

/-- FoodSystem.regenerate (food.py:66-113): returns the list of newly
spawned positions together with the updated field. -/
def FoodSystem.regenerate (fs : FoodSystem) (o : RegenOracle) : List Pos × FoodSystem :=
  let nf := fs.new_food o
  (nf, nf.foldl (fun s p => s.spawn_food p.1 p.2 Config.FOOD_ENERGY) fs)

/-- The sampled-empty-cell condition of claim C5: in this run of the
sampling, no sampled empty cell has exactly 2 or 3 occupied Moore-neighbors. -/
@[reducible] def No23Candidates (fs : FoodSystem) (o : RegenOracle) : Prop :=
  ∀ i ∈ List.range fs.check_count,
    fs.regenSample o i ∉ fs.food_grid →
      fs.neighborCount (fs.regenSample o i).1 (fs.regenSample o i).2 ≠ 2 ∧
      fs.neighborCount (fs.regenSample o i).1 (fs.regenSample o i).2 ≠ 3

/-- Same condition extended to neighbor count 1 — what the code actually
requires for zero regeneration. -/
@[reducible] def No123Candidates (fs : FoodSystem) (o : RegenOracle) : Prop :=
  ∀ i ∈ List.range fs.check_count,
    fs.regenSample o i ∉ fs.food_grid →
      fs.neighborCount (fs.regenSample o i).1 (fs.regenSample o i).2 ≠ 1 ∧
      fs.neighborCount (fs.regenSample o i).1 (fs.regenSample o i).2 ≠ 2 ∧
      fs.neighborCount (fs.regenSample o i).1 (fs.regenSample o i).2 ≠ 3

/-- A 10×10 field holding a single food item at (5,5). -/
def FS5 : FoodSystem := { width := 10, height := 10, food_grid := [((5 : Int), (5 : Int))], food_energy := [(((5 : Int), (5 : Int)), (25 : Int))] }

/-- A sampling outcome for `FS5`: the first check lands on the empty cell
(5,6), which has exactly one occupied Moore-neighbor, with a successful
draw; the other 99 checks land on (1,1), which has zero neighbors. -/
def O5 : RegenOracle :=
  { sampleX := fun i => if i = 0 then 4 else 0,
    sampleY := fun i => if i = 0 then 5 else 0,
    draw := fun i => i = 0 }

/-- C5 counterexample: a food field and a sampling outcome in which no
sampled empty cell has exactly 2 or 3 occupied Moore-neighbors, yet
`regenerate` spawns one new food item — the code also regenerates at
neighbor count 1 (with chance `RATE * 0.3`), which the claim ignores. -/
theorem c5_counterexample :
    ¬ (∀ (fs : FoodSystem) (o : RegenOracle),
        No23Candidates fs o → (fs.regenerate o).1 = []) := by
  intro h
  have h5 := h FS5 O5 (by decide)
  have : (FS5.regenerate O5).1 = [((5 : Int), (6 : Int))] := by decide
  rw [this] at h5
  exact absurd h5 (by decide)

/-- C5 amended: if no sampled empty cell has exactly 1, 2 or 3 occupied
Moore-neighbors, `regenerate` spawns zero new food items, for every outcome
of the random draws. -/
theorem c5_amended :
    ∀ (fs : FoodSystem) (o : RegenOracle),
      No123Candidates fs o → (fs.regenerate o).1 = [] := by
  intro fs o h
  show fs.new_food o = []
  unfold FoodSystem.new_food
  rw [List.filterMap_eq_nil_iff]
  intro i hi
  simp only
  by_cases hg : fs.regenSample o i ∈ fs.food_grid
  · simp [hg]
  · rcases h i hi hg with ⟨h1, h2, h3⟩
    simp [hg, h1, h2, h3]

/-- Witness for C5 (amended) on an entirely empty field, where every
sampled empty cell has zero occupied neighbors. -/
theorem c5_amended_witness :
    (FoodSystem.regenerate { width := 10, height := 10, food_grid := [], food_energy := [] }
      { sampleX := fun _ => 0, sampleY := fun _ => 0, draw := fun _ => true }).1 = [] :=
  c5_amended { width := 10, height := 10, food_grid := [], food_energy := [] }
    { sampleX := fun _ => 0, sampleY := fun _ => 0, draw := fun _ => true } (by decide)

/-! ### Entity store and world state (cell.py, world.py)

The spatial hash of world.py (`spatial_hash`, `_get_hash`, bucket size 16)
is a pure lookup accelerator: `_get_cells_at_position` (world.py:120-128)
iterates a bucket but keeps only ids that are still in `self.cells` AND
whose cell has exactly the queried position.  Every live cell's id is kept
registered under its current bucket (updated in `_update_spatial_hash` /
`_remove_from_spatial_hash` at every spawn, move and kill), so the query
returns exactly the live cells with the queried position; stale ids are
filtered out by the liveness check.  We therefore embed the query as a
direct filter of the cell store; the claims (C1 explicitly) are about
observable state, not hash internals. -/

structure Cell where
  id : Nat
  x : Int
  y : Int
  organism_id : Nat
  energy : Int
  age : Nat
deriving Repr, DecidableEq

structure Organism where
  id : Nat
  genome : String
  traits : List String
  cell_ids : List Nat
  birth_tick : Nat
deriving Repr, DecidableEq

structure World where
  width : Int
  height : Int
  cells : List (Nat × Cell)
  organisms : List (Nat × Organism)
  walls : List Pos
  food_system : FoodSystem
  next_cell_id : Nat
  next_organism_id : Nat
  tick_counter : Nat
deriving Repr, DecidableEq

/-- The walls laid out by `_setup_default_environment` (world.py:45-51):
`walls[x, 300]` and `walls[x, 700]` for x in 200..249. -/
def DEFAULT_WALLS : List Pos :=
  ((List.range 50).map (fun i => [(((200 + i : Nat) : Int), (300 : Int)), (((200 + i : Nat) : Int), (700 : Int))])).flatten

/-- World.__init__ (world.py:16-34).  The wall writes of
`_setup_default_environment` index the `dok_matrix` at x up to 249 and
y up to 700, which raises IndexError unless width ≥ 250 and height ≥ 701 —
modelled as `none`.  `defaultFood` is the outcome of the five random
`spawn_gaussian_cluster` calls; every outcome (including an empty field,
when every per-cell draw fails, which has positive probability) is
realizable, so it is passed in as a parameter. -/
def World.init (width height : Int) (defaultFood : FoodSystem) : Option World :=
  if 250 ≤ width ∧ 701 ≤ height then
    some { width := width, height := height, cells := [], organisms := [],
           walls := DEFAULT_WALLS, food_system := defaultFood,
           next_cell_id := 0, next_organism_id := 0, tick_counter := 0 }
  else none

/-- `self.cells.get(cell_id)`. -/
def World.lookupCell (w : World) (cid : Nat) : Option Cell :=
  (w.cells.find? (fun e => e.1 = cid)).map (fun e => e.2)

/-- `self.organisms.get(organism_id)`. -/
def World.lookupOrganism (w : World) (oid : Nat) : Option Organism :=
  (w.organisms.find? (fun e => e.1 = oid)).map (fun e => e.2)

/-- World._get_cells_at_position (world.py:120-128), as explained above. -/
def World.getCellsAt (w : World) (x y : Int) : List Cell :=
  (w.cells.filter (fun e => e.2.x = x ∧ e.2.y = y)).map (fun e => e.2)

/-- Mutating the cell object with id `cid` in place: the store keeps the
same keys, only the entry's payload changes. -/
def World.writeCell (w : World) (cid : Nat) (c : Cell) : World :=
  { w with cells := w.cells.map (fun e => if e.1 = cid then (cid, c) else e) }

/-- World._get_adjacent_cells (world.py:383-392). -/
def World.get_adjacent_cells (w : World) (x y : Int) : List Cell :=
  (MOORE_DELTAS.map (fun d => w.getCellsAt (x + d.1) (y + d.2))).flatten

/-- The ids currently allocated in the cell store. -/
def cellKeys (w : World) : List Nat := w.cells.map (fun e => e.1)

/-- Occupant count at a position (used to enforce the stacking limit). -/
def occ (w : World) (x y : Int) : Nat := (w.getCellsAt x y).length

/-- The organism-side cleanup of World._kill_cell (world.py:360-373):
discard the dead cell's id from its organism's cell set; an organism left
with no cells is deleted. -/
def killOrgUpdate (orgs : List (Nat × Organism)) (oid : Nat) (cid : Nat) :
    List (Nat × Organism) :=
  match orgs.find? (fun e => e.1 = oid) with
  | none => orgs
  | some en =>
      let org' : Organism := { en.2 with cell_ids := en.2.cell_ids.filter (fun j => j ≠ cid) }
      if org'.cell_ids.isEmpty then orgs.filter (fun e => e.1 ≠ en.1)
      else orgs.map (fun e => if e.1 = en.1 then (en.1, org') else e)

/-- World._kill_cell (world.py:345-376): no-op for an id that is not in the
store; otherwise drop decay food at the cell's position, detach the id from
its organism (deleting the organism when its cell set becomes empty) and
delete the cell.  (The three updates touch disjoint fields, so they are
written as one record update.) -/
def World.kill_cell (w : World) (cid : Nat) : World :=
  match w.lookupCell cid with
  | none => w
  | some cell =>
      { w with
        food_system := w.food_system.spawn_food cell.x cell.y Config.DECAY_FOOD_ENERGY,
        organisms := killOrgUpdate w.organisms cell.organism_id cid,
        cells := w.cells.filter (fun e => e.1 ≠ cid) }

/-- World._try_eat_cell (world.py:267-280): scan the 8 neighbors for the
first cell of a different organism; if found, add `target.energy // 2`
(Python floor division = `Int.fdiv`) to the predator object, kill the
target, and report `(target id, gained)`; else report `none`. -/
def World.try_eat_cell (w : World) (predator : Cell) : World × Option (Nat × Int) :=
  match (w.get_adjacent_cells predator.x predator.y).find?
      (fun t => t.organism_id ≠ predator.organism_id) with
  | none => (w, none)
  | some target =>
      let gained := Int.fdiv target.energy 2
      let w1 := w.writeCell predator.id { predator with energy := predator.energy + gained }
      (w1.kill_cell target.id, some (target.id, gained))

/-- Raw draws for the two `random.randint(-spread, spread)` calls of each
spawn attempt. -/
structure SpawnOracle where
  dxRaw : Nat → Nat
  dyRaw : Nat → Nat

/-- `random.randint(-spread, spread)`: every value in the closed range is
realizable and nothing else is. -/
def randint_sym (spread : Nat) (raw : Nat) : Int :=
  -(spread : Int) + ((raw % (2 * spread + 1) : Nat) : Int)

/-- The attempt loop of World.spawn_organism (world.py:77-118): up to 100
attempts; each clamps the jittered position into bounds and succeeds at the
first non-wall position under the stacking limit, allocating a fresh
organism (whose single cell starts with `STARTING_ENERGY - len(genome)`)
and returning it; after 100 failures the world is unchanged and the result
is `none`. -/
def World.spawnLoop (w : World) (o : SpawnOracle) (genome : String) (traits : List String)
    (x y : Int) (spread : Nat) : Nat → Nat → Option (World × Organism)
  | _, 0 => none
  | i, fuel + 1 =>
      let dx := randint_sym spread (o.dxRaw i)
      let dy := randint_sym spread (o.dyRaw i)
      let spawn_x := max 0 (min (w.width - 1) (x + dx))
      let spawn_y := max 0 (min (w.height - 1) (y + dy))
      if ((spawn_x, spawn_y) : Pos) ∉ w.walls ∧
          (w.getCellsAt spawn_x spawn_y).length < Config.MAX_CELLS_PER_LOCATION then
        let organism : Organism :=
          { id := w.next_organism_id, genome := genome, traits := traits,
            cell_ids := [w.next_cell_id], birth_tick := w.tick_counter }
        let cell : Cell :=
          { id := w.next_cell_id, x := spawn_x, y := spawn_y,
            organism_id := w.next_organism_id,
            energy := Config.STARTING_ENERGY - (genome.length : Int), age := 0 }
        some ({ w with
                organisms := w.organisms ++ [(w.next_organism_id, organism)],
                cells := w.cells ++ [(w.next_cell_id, cell)],
                next_organism_id := w.next_organism_id + 1,
                next_cell_id := w.next_cell_id + 1 }, organism)
      else w.spawnLoop o genome traits x y spread (i + 1) fuel

/-- World.spawn_organism (world.py:65-118). -/
def World.spawn_organism (w : World) (o : SpawnOracle) (genome : String) (x y : Int)
    (spread : Nat) : Option (World × Organism) :=
  match truthy (parse genome) with
  | none => none
  | some traits => w.spawnLoop o genome traits x y spread 0 100

/-- `randint(-0, 0)` is always 0, whatever the raw draw. -/
theorem randint_sym_zero (raw : Nat) : randint_sym 0 raw = 0 := by
  simp [randint_sym]

/-- The world produced by `World.init 1024 1024` with an empty default food
field (one realizable outcome of the random cluster seeding). -/
def W4 : World :=
  { width := 1024, height := 1024, cells := [], organisms := [],
    walls := DEFAULT_WALLS,
    food_system := { width := 1024, height := 1024, food_grid := [], food_energy := [] },
    next_cell_id := 0, next_organism_id := 0, tick_counter := 0 }

def Org4 : Organism :=
  { id := 0, genome := "[Cell][CanMove]", traits := [("Cell" : String), ("CanMove" : String)],
    cell_ids := [0], birth_tick := 0 }

def Cell4 : Cell :=
  { id := 0, x := 100, y := 100, organism_id := 0, energy := 185, age := 0 }

/-- C4 counterexample: spawning `"[Cell][CanMove]"` at (100,100) with spread
0 in a fresh 1024×1024 world (where (100,100) is empty, in bounds and not a
wall) yields one cell at (100,100) with energy 200 − 15 = 185, because the
genome is 15 characters long — not 200 − 11 as the claim states. -/
theorem c4_counterexample :
    World.init 1024 1024 { width := 1024, height := 1024, food_grid := [], food_energy := [] } = some W4 ∧
    W4.spawn_organism { dxRaw := fun _ => 0, dyRaw := fun _ => 0 } ("[Cell][CanMove]") 100 100 0 =
      some ({ W4 with
                organisms := [(0, Org4)], cells := [(0, Cell4)],
                next_organism_id := 1, next_cell_id := 1 }, Org4) ∧
    ("[Cell][CanMove]").length = 15 ∧
    Cell4.energy = Config.STARTING_ENERGY - 15 ∧
    Cell4.energy ≠ Config.STARTING_ENERGY - 11 := by
  refine ⟨by decide, by decide, by decide, by decide, by decide⟩

/-- C4 amended: under the stated preconditions the spawn succeeds on the
first attempt and the fresh organism's single cell sits at (x,y) with
energy `STARTING_ENERGY - genome.length` — for `"[Cell][CanMove]"` that is
`200 - 15 = 185` (the genome is 15 characters, not 11). -/
theorem c4_amended :
    ∀ (w : World) (o : SpawnOracle) (genome : String) (ts : List String) (x y : Int),
      truthy (parse genome) = some ts →
      0 ≤ x → x < w.width → 0 ≤ y → y < w.height →
      ((x, y) : Pos) ∉ w.walls →
      w.getCellsAt x y = [] →
      ∃ org : Organism,
        w.spawn_organism o genome x y 0 = some
          ({ w with
              organisms := w.organisms ++ [(w.next_organism_id, org)],
              cells := w.cells ++ [(w.next_cell_id,
                { id := w.next_cell_id, x := x, y := y, organism_id := w.next_organism_id,
                  energy := Config.STARTING_ENERGY - (genome.length : Int), age := 0 })],
              next_organism_id := w.next_organism_id + 1,
              next_cell_id := w.next_cell_id + 1 }, org) ∧
        org.genome = genome ∧ org.cell_ids = [w.next_cell_id] := by
  intro w o genome ts x y hts hx0 hxw hy0 hyh hwall hempty
  refine ⟨{ id := w.next_organism_id, genome := genome, traits := ts,
            cell_ids := [w.next_cell_id], birth_tick := w.tick_counter }, ?_, rfl, rfl⟩
  unfold World.spawn_organism
  rw [hts]
  show World.spawnLoop w o genome ts x y 0 0 (99 + 1) = _
  unfold World.spawnLoop
  have hx : max 0 (min (w.width - 1) (x + randint_sym 0 (o.dxRaw 0))) = x := by
    rw [randint_sym_zero]; omega
  have hy : max 0 (min (w.height - 1) (y + randint_sym 0 (o.dyRaw 0))) = y := by
    rw [randint_sym_zero]; omega
  simp only [hx, hy]
  rw [if_pos ⟨hwall, by simp [hempty, Config.MAX_CELLS_PER_LOCATION]⟩]

/-- Witness for C4 (amended) in a small empty world. -/
theorem c4_amended_witness :
    ∃ org : Organism,
      (World.spawn_organism
        { width := 300, height := 800, cells := [], organisms := [], walls := [],
          food_system := { width := 300, height := 800, food_grid := [], food_energy := [] },
          next_cell_id := 0, next_organism_id := 0, tick_counter := 0 }
        { dxRaw := fun _ => 7, dyRaw := fun _ => 3 } ("[Cell]") 5 6 0) = some
        ({ width := 300, height := 800, cells := [(0,
            { id := 0, x := 5, y := 6, organism_id := 0,
              energy := Config.STARTING_ENERGY - ((("[Cell]" : String)).length : Int), age := 0 })],
           organisms := [(0, org)], walls := [],
           food_system := { width := 300, height := 800, food_grid := [], food_energy := [] },
           next_cell_id := 1, next_organism_id := 1, tick_counter := 0 }, org) ∧
      org.genome = "[Cell]" ∧ org.cell_ids = [0] := by
  rcases c4_amended
      { width := 300, height := 800, cells := [], organisms := [], walls := [],
        food_system := { width := 300, height := 800, food_grid := [], food_energy := [] },
        next_cell_id := 0, next_organism_id := 0, tick_counter := 0 }
      { dxRaw := fun _ => 7, dyRaw := fun _ => 3 } ("[Cell]") [("Cell" : String)] 5 6
      (by decide) (by decide) (by decide) (by decide) (by decide) (by decide) (by decide)
    with ⟨org, h1, h2, h3⟩
  exact ⟨org, h1, h2, h3⟩

/-- After deleting a key, no entry with that key remains. -/
theorem find?_filter_ne_none {α β : Type} [DecidableEq α] (l : List (α × β)) (cid : α) :
    (l.filter (fun e => e.1 ≠ cid)).find? (fun e => e.1 = cid) = none := by
  rw [List.find?_eq_none]
  intro a ha
  have := (List.mem_filter.mp ha).2
  simpa using this

/-- A kill on a missing id is the identity (world.py:347-350). -/
theorem kill_cell_missing (w : World) (cid : Nat) (h : w.lookupCell cid = none) :
    w.kill_cell cid = w := by
  unfold World.kill_cell
  rw [h]

/-- After killing `cid`, the id is gone from the cell store. -/
theorem kill_cell_lookup_self (w : World) (cid : Nat) :
    (w.kill_cell cid).lookupCell cid = none := by
  unfold World.kill_cell
  rcases h : w.lookupCell cid with _ | c
  · exact h
  · simp only [World.lookupCell]
    rw [find?_filter_ne_none]
    rfl

/-- C10: killing a cell id that is not in the cell store is a complete
no-op (no decay food, no organism change, no index change); in particular
a second kill of the same id — as happens when a predation victim's id is
processed again in the end-of-tick dead list — has no effect. -/
theorem c10_kill_missing_noop :
    (∀ (w : World) (cid : Nat), w.lookupCell cid = none → w.kill_cell cid = w) ∧
    (∀ (w : World) (cid : Nat), (w.kill_cell cid).kill_cell cid = w.kill_cell cid) :=
  ⟨fun w cid h => kill_cell_missing w cid h,
   fun w cid => kill_cell_missing _ cid (kill_cell_lookup_self w cid)⟩

/-- Witness for C10 on a concrete world with an empty cell store. -/
theorem c10_kill_missing_noop_witness :
    World.kill_cell
      { width := 300, height := 800, cells := [], organisms := [], walls := [],
        food_system := { width := 300, height := 800, food_grid := [], food_energy := [] },
        next_cell_id := 0, next_organism_id := 0, tick_counter := 0 } 3 =
      { width := 300, height := 800, cells := [], organisms := [], walls := [],
        food_system := { width := 300, height := 800, food_grid := [], food_energy := [] },
        next_cell_id := 0, next_organism_id := 0, tick_counter := 0 } :=
  c10_kill_missing_noop.1
    { width := 300, height := 800, cells := [], organisms := [], walls := [],
      food_system := { width := 300, height := 800, food_grid := [], food_energy := [] },
      next_cell_id := 0, next_organism_id := 0, tick_counter := 0 } 3 (by decide)

/-! ### Snapshot (de)serialization (world.py:408-468, food.py:115-140)

A snapshot dict is modelled field by field: `Option` distinguishes a
present key from a missing one.  `data["k"]` on a missing key raises
KeyError (a fatal load error, modelled as the whole load returning `none`),
while `data.get("k", [])` yields the default. -/

structure FoodData where
  food : Option (List (Int × Int × Int))
deriving Repr, DecidableEq

structure OrgData where
  genome : String
  cells : List (Int × Int)
deriving Repr, DecidableEq

structure SnapshotData where
  width : Option Int
  height : Option Int
  organisms : Option (List OrgData)
  food : Option FoodData
  walls : Option (List (Int × Int))
deriving Repr, DecidableEq

/-- FoodSystem.to_dict (food.py:115-126): one `(x, y, energy)` triple per
set grid flag, energy looked up with default `FOOD_ENERGY`. -/
def FoodSystem.to_dict (fs : FoodSystem) : FoodData :=
  { food := some (fs.food_grid.map (fun p =>
      (p.1, p.2, (lookupEnergy fs.food_energy p).getD Config.FOOD_ENERGY))) }

/-- FoodSystem.from_dict (food.py:128-140): `data.get("food", [])`, then
spawn each triple into a fresh field of the given dimensions. -/
def FoodSystem.from_dict (data : FoodData) (width height : Int) : FoodSystem :=
  (data.food.getD []).foldl (fun s t => s.spawn_food t.1 t.2.1 t.2.2)
    { width := width, height := height, food_grid := [], food_energy := [] }

/-- World.to_dict (world.py:408-429).  Each organism serializes its genome
and the positions of its still-live cells; the walls list is the set of
positions with the flag set (`zip(*self.walls.nonzero())`). -/
def World.to_dict (w : World) : SnapshotData :=
  { width := some w.width,
    height := some w.height,
    organisms := some (w.organisms.map (fun e =>
      { genome := e.2.genome,
        cells := e.2.cell_ids.filterMap (fun cid =>
          (w.lookupCell cid).map (fun c => (c.x, c.y))) })),
    food := some w.food_system.to_dict,
    walls := some w.walls }

/-- One step of the organism-loading loop of World.from_dict
(world.py:452-466): re-spawn the organism at its first listed cell with
spread 0; an organism with no cells, or whose spawn fails, is skipped. -/
def fromDictOrgStep (wa : World) (od : OrgData) : World :=
  match od.cells with
  | [] => wa
  | (cx, cy) :: _ =>
      match wa.spawn_organism { dxRaw := fun _ => 0, dyRaw := fun _ => 0 } od.genome cx cy 0 with
      | some r => r.1
      | none => wa

/-- World.from_dict (world.py:431-468).  `data["width"]`/`data["height"]`
are mandatory (KeyError → fatal).  A fresh world is built (IndexError for
too-small dimensions → fatal; the random default food is immediately
replaced, so the empty outcome is passed).  Walls from `data.get("walls",
[])` are OR-ed into the default walls; an out-of-bounds wall would raise
IndexError on the dok assignment (fatal).  `data["food"]` is mandatory
(KeyError → fatal).  Organisms from `data.get("organisms", [])` are
re-spawned at their first listed cell with spread 0 (`randint(-0, 0)` is
always 0, so the constant-zero oracle is exact); a failed spawn is silently
dropped; cells after the first are skipped (multicellular loading is
unimplemented). -/
def World.from_dict (data : SnapshotData) : Option World :=
  match data.width, data.height with
  | some width, some height =>
      match World.init width height { width := width, height := height, food_grid := [], food_energy := [] } with
      | none => none
      | some w0 =>
          let wallsList := data.walls.getD []
          if wallsList.all (fun p => decide (0 ≤ p.1 ∧ p.1 < width ∧ 0 ≤ p.2 ∧ p.2 < height)) then
            let w1 : World := { w0 with
              walls := wallsList.foldl (fun ws p => if p ∈ ws then ws else ws ++ [p]) w0.walls }
            match data.food with
            | none => none
            | some fd =>
                let w2 : World := { w1 with food_system := FoodSystem.from_dict fd width height }
                let w3 : World := (data.organisms.getD []).foldl fromDictOrgStep w2
                some w3
          else none
  | _, _ => none

/-- C9 counterexample: a snapshot with width, height, walls and organisms
all present but the `food` key missing is rejected by the loader
(`data["food"]` raises KeyError), although the claim says every missing
optional field — food included — defaults to an empty collection. -/
theorem c9_counterexample :
    World.from_dict
      { width := some 1024, height := some 1024, organisms := some [],
        food := none, walls := some [] } = none := by
  decide

/-- C9 amended: missing `walls` or `organisms` default to empty collections
and the load succeeds (given valid dimensions and a present `food` field),
while a missing `width`, `height` or `food` field is a fatal load error
surfaced to the caller as `none`. -/
theorem c9_amended :
    (∀ (width height : Int) (fd : FoodData), 250 ≤ width → 701 ≤ height →
      ∃ w : World,
        World.from_dict { width := some width, height := some height,
                          organisms := none, food := some fd, walls := none } = some w ∧
        w.organisms = [] ∧ w.cells = [] ∧ w.walls = DEFAULT_WALLS ∧
        w.food_system = FoodSystem.from_dict fd width height) ∧
    (∀ d : SnapshotData, d.width = none → World.from_dict d = none) ∧
    (∀ d : SnapshotData, d.height = none → World.from_dict d = none) ∧
    (∀ d : SnapshotData, d.food = none → World.from_dict d = none) := by
  refine ⟨?_, ?_, ?_, ?_⟩
  · intro width height fd hw hh
    have hinit : World.init width height { width := width, height := height, food_grid := [], food_energy := [] } =
        some { width := width, height := height, cells := [], organisms := [],
               walls := DEFAULT_WALLS,
               food_system := { width := width, height := height, food_grid := [], food_energy := [] },
               next_cell_id := 0, next_organism_id := 0, tick_counter := 0 } := by
      unfold World.init
      rw [if_pos ⟨hw, hh⟩]
    refine ⟨{ width := width, height := height, cells := [], organisms := [],
              walls := DEFAULT_WALLS,
              food_system := FoodSystem.from_dict fd width height,
              next_cell_id := 0, next_organism_id := 0, tick_counter := 0 }, ?_, rfl, rfl, rfl, rfl⟩
    unfold World.from_dict
    simp only [hinit, Option.getD_none, List.all_nil, List.foldl_nil, eq_self_iff_true, if_true]
  · intro d h
    unfold World.from_dict
    rw [h]
  · intro d h
    unfold World.from_dict
    rw [h]
    rcases hw : d.width with _ | a
    · rfl
    · rfl
  · intro d h
    unfold World.from_dict
    rcases hw : d.width with _ | a
    · rfl
    · rcases hh : d.height with _ | b
      · rfl
      · rcases hi : World.init a b { width := a, height := b, food_grid := [], food_energy := [] } with _ | w0
        · simp only [hi]
        · simp only [hi, h, ite_self]

/-- Witness for C9 (amended) at concrete dimensions and food data. -/
theorem c9_amended_witness :
    ∃ w : World,
      World.from_dict { width := some 1024, height := some 1024, organisms := none,
                        food := some { food := some [((3 : Int), (4 : Int), (25 : Int))] }, walls := none } = some w ∧
      w.organisms = [] ∧ w.cells = [] ∧ w.walls = DEFAULT_WALLS ∧
      w.food_system = FoodSystem.from_dict { food := some [((3 : Int), (4 : Int), (25 : Int))] } 1024 1024 :=
  c9_amended.1 1024 1024 { food := some [((3 : Int), (4 : Int), (25 : Int))] } (by decide) (by decide)

/-! ### The tick state machine (world.py:130-343)

`World.update` iterates a snapshot of `self.cells.items()` taken at tick
start.  Each cell's behavior runs against the live world, mutating it in
place; deaths from energy are queued in `dead_cells` and processed only
after the loop; predation kills immediately.  Every organism ever created
owns exactly one cell (multicellular growth is unimplemented), so when a
cell is killed mid-tick its organism is deleted with it; a later loop
iteration visiting the removed cell's stale object therefore fails the
organism lookup and merely re-queues the id (whose kill is then a no-op).
The embedding iterates the snapshot of ids and re-reads the store, with the
missing-id case handled exactly that way. -/

def AXIS_DIRECTIONS : List Pos := [(0, 1), (1, 0), (0, -1), (-1, 0)]

/-- Remove the element at an index (identity when out of range). -/
def dropAt {α : Type} : List α → Nat → List α
  | [], _ => []
  | _ :: xs, 0 => xs
  | x :: xs, n + 1 => x :: dropAt xs n

/-- `random.shuffle` on a list, modelled as repeated uniform selection
without replacement driven by the raw picks `picks step % remaining`; every
permutation of the input is realizable and nothing else is.  The fuel is
the list length (4 at the call site). -/
def shuffleSel (picks : Nat → Nat) : Nat → Nat → List Pos → List Pos
  | _, 0, l => l
  | step, fuel + 1, l =>
      match l[picks step % l.length]? with
      | some d => d :: shuffleSel picks (step + 1) fuel (dropAt l (picks step % l.length))
      | none => []

/-- The shuffled copy of the four axis directions (world.py:236-237). -/
def shuffled_directions (picks : Nat → Nat) : List Pos :=
  shuffleSel picks 0 4 AXIS_DIRECTIONS

/-- The direction loop of World._move_cell (world.py:234-265): move to the
first in-bounds, non-wall, under-limit target, paying the movement cost;
stay put if no direction works.  Returns the world, the cell object's new
value and the `moved` flag. -/
def World.moveLoop (w : World) (cid : Nat) (cell : Cell) : List Pos → World × Cell × Bool
  | [] => (w, cell, false)
  | d :: rest =>
      let new_x := cell.x + d.1
      let new_y := cell.y + d.2
      if 0 ≤ new_x ∧ new_x < w.width ∧ 0 ≤ new_y ∧ new_y < w.height ∧
          ((new_x, new_y) : Pos) ∉ w.walls then
        if (w.getCellsAt new_x new_y).length < Config.MAX_CELLS_PER_LOCATION then
          let cell' : Cell :=
            { cell with x := new_x, y := new_y, energy := cell.energy - Config.MOVEMENT_COST }
          (w.writeCell cid cell', cell', true)
        else w.moveLoop cid cell rest
      else w.moveLoop cid cell rest

/-- World._move_cell (world.py:234-265). -/
def World.move_cell (w : World) (cid : Nat) (cell : Cell) (picks : Nat → Nat) :
    World × Cell × Bool :=
  w.moveLoop cid cell (shuffled_directions picks)

/-- The direction loop of World._try_reproduce (world.py:288-343): fixed
direction order; at each legal target the parent genome is mutated and
re-parsed (the counter `k` numbers the mutate calls, each consuming fresh
randomness); a successful parse creates the offspring organism and cell and
deducts the reproduction cost from the parent; a failed parse falls through
to the next direction. -/
def World.reproduceLoop (w : World) (cid : Nat) (cell : Cell) (org : Organism)
    (mo : Nat → MutOracle) : List Pos → Nat → World × Bool
  | [], _ => (w, false)
  | d :: rest, k =>
      let new_x := cell.x + d.1
      let new_y := cell.y + d.2
      if 0 ≤ new_x ∧ new_x < w.width ∧ 0 ≤ new_y ∧ new_y < w.height ∧
          ((new_x, new_y) : Pos) ∉ w.walls then
        if (w.getCellsAt new_x new_y).length < Config.MAX_CELLS_PER_LOCATION then
          let new_genome := mutate org.genome (mo k)
          match truthy (parse new_genome) with
          | some new_traits =>
              let offspring : Organism :=
                { id := w.next_organism_id, genome := new_genome, traits := new_traits,
                  cell_ids := [w.next_cell_id], birth_tick := w.tick_counter }
              let offspring_cell : Cell :=
                { id := w.next_cell_id, x := new_x, y := new_y,
                  organism_id := w.next_organism_id,
                  energy := Config.STARTING_ENERGY - (new_genome.length : Int), age := 0 }
              let w1 : World := { w with
                organisms := w.organisms ++ [(w.next_organism_id, offspring)],
                cells := w.cells ++ [(w.next_cell_id, offspring_cell)],
                next_organism_id := w.next_organism_id + 1,
                next_cell_id := w.next_cell_id + 1 }
              (w1.writeCell cid { cell with energy := cell.energy - Config.REPRODUCTION_COST }, true)
          | none => w.reproduceLoop cid cell org mo rest (k + 1)
        else w.reproduceLoop cid cell org mo rest k
      else w.reproduceLoop cid cell org mo rest k

/-- World._try_reproduce (world.py:282-343). -/
def World.try_reproduce (w : World) (cid : Nat) (cell : Cell) (org : Organism)
    (mo : Nat → MutOracle) : World × Bool :=
  w.reproduceLoop cid cell org mo AXIS_DIRECTIONS 0

/-- One predation observed during a tick: who ate whom, the energy
transferred, and whether the prey was already queued for death when it was
eaten (the instrumentation mirrors the debug logging of world.py:186-192;
it does not influence the state). -/
structure PredEvent where
  predator : Nat
  prey : Nat
  gained : Int
  preyWasQueued : Bool
deriving Repr, DecidableEq

/-- The eating step of the per-cell behavior (world.py:177-192): try food
at the cell's own position first (`eat_food` removes the item whatever its
energy); on a non-positive yield, attempt predation. -/
def World.eatPhase (w : World) (cid : Nat) (cell : Cell) (dead : List Nat) :
    World × Cell × Option PredEvent :=
  let r := w.food_system.eat_food cell.x cell.y
  let w1 : World := { w with food_system := r.2 }
  if r.1 > 0 then
    let cell' : Cell := { cell with energy := cell.energy + r.1 }
    (w1.writeCell cid cell', cell', none)
  else
    match w1.try_eat_cell cell with
    | (w2, some pr) =>
        let cell' : Cell := { cell with energy := cell.energy + pr.2 }
        (w2, cell', some { predator := cid, prey := pr.1, gained := pr.2,
                           preyWasQueued := decide (pr.1 ∈ dead) })
    | (w2, none) => (w2, cell, none)

/-- The world, the queued-death list and the predation trace as they evolve
through the behavior loop. -/
structure TickState where
  w : World
  dead : List Nat
  events : List PredEvent

/-- The random draws available to one cell's behaviors in one tick. -/
structure CellOracle where
  movePicks : Nat → Nat
  muts : Nat → MutOracle

/-- The random draws of one whole tick. -/
structure TickOracle where
  cellO : Nat → CellOracle
  regen : RegenOracle

/-- Aging plus the periodic energy drain applied to the cell object
(world.py:154-165). -/
def agedCell (cell0 : Cell) (org : Organism) (should_drain : Bool) : Cell :=
  let cell1 : Cell := { cell0 with age := cell0.age + 1 }
  if should_drain then
    { cell1 with energy := cell1.energy - (org.genome.length : Int) * Config.GENOME_ENERGY_COST }
  else cell1

/-- The age/drain/move/eat portion of one cell's behaviors (world.py
154-192): age the cell object, drain energy on drain ticks, move if the
organism can move, then eat if it can eat.  Returns the world, the cell
object's final value and the predation event, if any. -/
def behaveCell (w : World) (o : CellOracle) (should_drain : Bool) (cid : Nat)
    (cell0 : Cell) (org : Organism) (dead : List Nat) : World × Cell × Option PredEvent :=
  let cell2 : Cell := agedCell cell0 org should_drain
  let w2 := w.writeCell cid cell2
  let m :=
    if ("CanMove" : String) ∈ org.traits then w2.move_cell cid cell2 o.movePicks
    else (w2, cell2, false)
  if ("CanEat" : String) ∈ org.traits then m.1.eatPhase cid m.2.1 dead
  else (m.1, m.2.1, none)

/-- The body of the per-cell behavior loop (world.py:147-204): skip (and
queue) ids whose cell or organism is gone; run the behaviors; queue the
cell for death at energy ≤ 0, else attempt reproduction above the
threshold. -/
def processCell (st : TickState) (o : CellOracle) (should_drain : Bool) (cid : Nat) :
    TickState :=
  match st.w.lookupCell cid with
  | none => { st with dead := st.dead ++ [cid] }
  | some cell0 =>
      match st.w.lookupOrganism cell0.organism_id with
      | none => { st with dead := st.dead ++ [cid] }
      | some org =>
          let e := behaveCell st.w o should_drain cid cell0 org st.dead
          let events' := st.events ++ (match e.2.2 with | some ev => [ev] | none => [])
          if e.2.1.energy ≤ 0 then
            { w := e.1, dead := st.dead ++ [cid], events := events' }
          else if e.2.1.energy > Config.REPRODUCTION_THRESHOLD then
            { w := (e.1.try_reproduce cid e.2.1 org (o.muts)).1, dead := st.dead, events := events' }
          else
            { w := e.1, dead := st.dead, events := events' }

/-- The behavior loop over the tick-start snapshot of cell ids. -/
def tickLoop (w : World) (o : TickOracle) (should_drain : Bool) : TickState :=
  ((w.cells.map (fun e => e.1)).enum).foldl
    (fun st p => processCell st (o.cellO p.1) should_drain p.2)
    { w := w, dead := [], events := [] }

/-- World.update (world.py:130-232): bump the tick counter, decide whether
this is an energy-drain tick, run every cell's behaviors, process the
queued deaths, and regenerate food.  (The statistics callbacks are an
external event sink and do not touch world state.)  Returns the final world
together with the loop trace. -/
def runTick (w : World) (o : TickOracle) : World × TickState :=
  let w0 : World := { w with tick_counter := w.tick_counter + 1 }
  let should_drain := (w.tick_counter + 1) % Config.ENERGY_DRAIN_INTERVAL = 0
  let st := tickLoop w0 o should_drain
  let w1 := st.dead.foldl (fun wa cid => wa.kill_cell cid) st.w
  ({ w1 with food_system := (w1.food_system.regenerate o.regen).2 }, st)

/-- World.update, observable part. -/
def World.update (w : World) (o : TickOracle) : World := (runTick w o).1

/-- Legality of a reproduction target (the two guards of world.py:292-297):
in bounds, not a wall, and under the stacking limit. -/
def ReproLegal (w : World) (x y : Int) : Prop :=
  (0 ≤ x ∧ x < w.width ∧ 0 ≤ y ∧ y < w.height ∧ ((x, y) : Pos) ∉ w.walls) ∧
  (w.getCellsAt x y).length < Config.MAX_CELLS_PER_LOCATION

instance (w : World) (x y : Int) : Decidable (ReproLegal w x y) := by
  unfold ReproLegal
  exact instDecidableAnd

/-- A 10×10 world with a single organism whose cell sits at (2,2) with
energy 300 (above the reproduction threshold). -/
def W3 : World :=
  { width := 10, height := 10,
    cells := [(0, { id := 0, x := 2, y := 2, organism_id := 0, energy := 300, age := 0 })],
    organisms := [(0, { id := 0, genome := "[Cell]", traits := [("Cell" : String)],
                        cell_ids := [0], birth_tick := 0 })],
    walls := [],
    food_system := { width := 10, height := 10, food_grid := [], food_energy := [] },
    next_cell_id := 1, next_organism_id := 1, tick_counter := 0 }

def C3cell : Cell := { id := 0, x := 2, y := 2, organism_id := 0, energy := 300, age := 0 }

def C3org : Organism :=
  { id := 0, genome := "[Cell]", traits := [("Cell" : String)], cell_ids := [0], birth_tick := 0 }

/-- Mutation outcomes for C3: the first mutate call corrupts the genome
(point mutation at position 0 turns `"[Cell]"` into `"ACell]"`, which fails
to re-parse); every later mutate call leaves the genome unchanged. -/
def C3muts : Nat → MutOracle :=
  fun k => if k = 0 then { no_mutation := false, kind := 0, pos := 0, charIdx := 0, traitIdx := 0 }
           else { no_mutation := true, kind := 0, pos := 0, charIdx := 0, traitIdx := 0 }

/-- C3 counterexample: in `W3`, the first legal adjacent target is found at
direction (0,1) and the first mutate + re-parse fails, yet the reproduction
attempt does NOT fail for this cell this tick: the loop retries at the
remaining directions, mutates and re-parses again, and creates an offspring
at the second legal target — so the claim's "mutated and re-parsed exactly
once; no retry at the remaining directions; no offspring" is false on the
code (the parse-failure branch of world.py:338-340 has no return or break). -/
theorem c3_counterexample :
    ¬ (∀ (w : World) (cid : Nat) (cell : Cell) (org : Organism) (mo : Nat → MutOracle) (d : Pos),
        AXIS_DIRECTIONS.find? (fun d' => decide (ReproLegal w (cell.x + d'.1) (cell.y + d'.2))) = some d →
        truthy (parse (mutate org.genome (mo 0))) = none →
        w.try_reproduce cid cell org mo = (w, false)) := by
  intro h
  have hc := h W3 0 C3cell C3org C3muts ((0 : Int), (1 : Int)) (by decide) (by decide)
  have ht : (W3.try_reproduce 0 C3cell C3org C3muts).2 = true := by decide
  rw [hc] at ht
  exact absurd ht (by decide)

/-- The reproduction loop with a genome whose every mutation fails to
re-parse runs through all remaining directions and fails, leaving the world
unchanged. -/
theorem reproduceLoop_all_parse_fail (w : World) (cid : Nat) (cell : Cell) (org : Organism)
    (mo : Nat → MutOracle)
    (hfail : ∀ k, truthy (parse (mutate org.genome (mo k))) = none) :
    ∀ (dirs : List Pos) (k : Nat), w.reproduceLoop cid cell org mo dirs k = (w, false) := by
  intro dirs
  induction dirs with
  | nil => intro k; rfl
  | cons d rest ih =>
      intro k
      simp only [World.reproduceLoop]
      by_cases h1 : 0 ≤ cell.x + d.1 ∧ cell.x + d.1 < w.width ∧ 0 ≤ cell.y + d.2 ∧
          cell.y + d.2 < w.height ∧ ((cell.x + d.1, cell.y + d.2) : Pos) ∉ w.walls
      · rw [if_pos h1]
        by_cases h2 : (w.getCellsAt (cell.x + d.1) (cell.y + d.2)).length < Config.MAX_CELLS_PER_LOCATION
        · rw [if_pos h2, hfail k]
          exact ih (k + 1)
        · rw [if_neg h2]
          exact ih k
      · rw [if_neg h1]
        exact ih k

/-- C3 amended: once the first legal adjacent target is found the genome is
mutated and re-parsed; on a re-parse failure the attempt is NOT abandoned —
the loop moves on and mutates/re-parses again at each further legal
direction (second conjunct); only if every mutate along the way fails to
re-parse (in particular when every possible mutation outcome fails) does
reproduction fail for this cell this tick, with no offspring created and
the world — the parent included — unchanged (first conjunct). -/
theorem c3_amended :
    (∀ (w : World) (cid : Nat) (cell : Cell) (org : Organism) (mo : Nat → MutOracle),
      (∀ k, truthy (parse (mutate org.genome (mo k))) = none) →
      w.try_reproduce cid cell org mo = (w, false)) ∧
    (∀ (w : World) (cid : Nat) (cell : Cell) (org : Organism) (mo : Nat → MutOracle)
        (d : Pos) (rest : List Pos) (k : Nat),
      ReproLegal w (cell.x + d.1) (cell.y + d.2) →
      truthy (parse (mutate org.genome (mo k))) = none →
      w.reproduceLoop cid cell org mo (d :: rest) k = w.reproduceLoop cid cell org mo rest (k + 1)) := by
  constructor
  · intro w cid cell org mo hfail
    exact reproduceLoop_all_parse_fail w cid cell org mo hfail AXIS_DIRECTIONS 0
  · intro w cid cell org mo d rest k hleg hfail
    simp only [World.reproduceLoop]
    rw [if_pos hleg.1, if_pos hleg.2, hfail]

/-- Witness for C3 (amended), applying both conjuncts at the concrete world
`W3` with an always-corrupting mutation oracle. -/
theorem c3_amended_witness :
    W3.try_reproduce 0 C3cell C3org
        (fun _ => { no_mutation := false, kind := 0, pos := 0, charIdx := 0, traitIdx := 0 }) = (W3, false) ∧
    W3.reproduceLoop 0 C3cell C3org
        (fun _ => { no_mutation := false, kind := 0, pos := 0, charIdx := 0, traitIdx := 0 })
        AXIS_DIRECTIONS 0 =
      W3.reproduceLoop 0 C3cell C3org
        (fun _ => { no_mutation := false, kind := 0, pos := 0, charIdx := 0, traitIdx := 0 })
        [((1 : Int), (0 : Int)), ((0 : Int), (-1 : Int)), ((-1 : Int), (0 : Int))] 1 :=
  ⟨c3_amended.1 W3 0 C3cell C3org _ (fun _ => by decide),
   c3_amended.2 W3 0 C3cell C3org _ ((0 : Int), (1 : Int)) _ 0 (by decide) (by decide)⟩

/-! ### Key-tracking lemmas for the behavior loop -/

/-- Updating an entry's payload in place keeps the key list. -/
theorem keys_setEntry (l : List (Nat × Cell)) (cid : Nat) (c : Cell) :
    (l.map (fun e => if e.1 = cid then (cid, c) else e)).map (fun e => e.1) =
      l.map (fun e => e.1) := by
  induction l with
  | nil => rfl
  | cons e rest ih =>
      by_cases h : e.1 = cid
      · simp [h, ih]
      · simp [h, ih]

theorem cellKeys_writeCell (w : World) (cid : Nat) (c : Cell) :
    cellKeys (w.writeCell cid c) = cellKeys w :=
  keys_setEntry w.cells cid c

theorem lookupCell_none_iff (w : World) (cid : Nat) :
    w.lookupCell cid = none ↔ cid ∉ cellKeys w := by
  unfold World.lookupCell cellKeys
  rw [Option.map_eq_none', List.find?_eq_none]
  simp only [List.mem_map, decide_eq_true_eq, not_exists, not_and]

theorem cellKeys_kill (w : World) (cid : Nat) :
    ∀ x, x ∈ cellKeys (w.kill_cell cid) ↔ (x ∈ cellKeys w ∧ x ≠ cid) := by
  intro x
  unfold World.kill_cell
  rcases h : w.lookupCell cid with _ | cell
  · have hno : cid ∉ cellKeys w := (lookupCell_none_iff w cid).mp h
    constructor
    · intro hx
      exact ⟨hx, fun hxe => hno (hxe ▸ hx)⟩
    · intro hx
      exact hx.1
  · show x ∈ (w.cells.filter (fun e => e.1 ≠ cid)).map (fun e => e.1) ↔ _
    constructor
    · intro hx
      rcases List.mem_map.mp hx with ⟨e, he, hk⟩
      have := List.mem_filter.mp he
      exact ⟨List.mem_map.mpr ⟨e, this.1, hk⟩, by
        have h2 := this.2
        simp only [decide_eq_true_eq] at h2
        exact hk ▸ h2⟩
    · intro hx
      rcases List.mem_map.mp hx.1 with ⟨e, he, hk⟩
      exact List.mem_map.mpr ⟨e, List.mem_filter.mpr ⟨he, by
        simp only [decide_eq_true_eq]
        exact hk ▸ hx.2⟩, hk⟩

theorem cellKeys_moveLoop (w : World) (cid : Nat) (cell : Cell) :
    ∀ dirs : List Pos, cellKeys (w.moveLoop cid cell dirs).1 = cellKeys w := by
  intro dirs
  induction dirs with
  | nil => rfl
  | cons d rest ih =>
      simp only [World.moveLoop]
      by_cases h1 : 0 ≤ cell.x + d.1 ∧ cell.x + d.1 < w.width ∧ 0 ≤ cell.y + d.2 ∧
          cell.y + d.2 < w.height ∧ ((cell.x + d.1, cell.y + d.2) : Pos) ∉ w.walls
      · rw [if_pos h1]
        by_cases h2 : (w.getCellsAt (cell.x + d.1) (cell.y + d.2)).length < Config.MAX_CELLS_PER_LOCATION
        · rw [if_pos h2]
          exact cellKeys_writeCell w cid _
        · rw [if_neg h2]
          exact ih
      · rw [if_neg h1]
        exact ih

theorem cellKeys_reproduceLoop (w : World) (cid : Nat) (cell : Cell) (org : Organism)
    (mo : Nat → MutOracle) :
    ∀ (dirs : List Pos) (k : Nat) (x : Nat), x ∈ cellKeys w →
      x ∈ cellKeys (w.reproduceLoop cid cell org mo dirs k).1 := by
  intro dirs
  induction dirs with
  | nil => intro k x hx; exact hx
  | cons d rest ih =>
      intro k x hx
      simp only [World.reproduceLoop]
      by_cases h1 : 0 ≤ cell.x + d.1 ∧ cell.x + d.1 < w.width ∧ 0 ≤ cell.y + d.2 ∧
          cell.y + d.2 < w.height ∧ ((cell.x + d.1, cell.y + d.2) : Pos) ∉ w.walls
      · rw [if_pos h1]
        by_cases h2 : (w.getCellsAt (cell.x + d.1) (cell.y + d.2)).length < Config.MAX_CELLS_PER_LOCATION
        · rw [if_pos h2]
          rcases ht : truthy (parse (mutate org.genome (mo k))) with _ | ts
          · exact ih (k + 1) x hx
          · show x ∈ cellKeys (World.writeCell _ cid _)
            rw [cellKeys_writeCell]
            show x ∈ (w.cells ++ _).map (fun e => e.1)
            rw [List.map_append]
            exact List.mem_append_left _ hx
        · rw [if_neg h2]
          exact ih k x hx
      · rw [if_neg h1]
        exact ih k x hx

theorem cellKeys_try_eat (w : World) (pred : Cell) :
    ∀ x ∈ cellKeys w,
      x ∈ cellKeys (w.try_eat_cell pred).1 ∨
      (∃ g, (w.try_eat_cell pred).2 = some (x, g)) := by
  intro x hx
  unfold World.try_eat_cell
  split
  · left
    exact hx
  · rename_i target _
    by_cases hxt : x = target.id
    · right
      exact ⟨_, by rw [hxt]⟩
    · left
      show x ∈ cellKeys (World.kill_cell (World.writeCell _ _ _) target.id)
      rw [cellKeys_kill]
      refine ⟨?_, hxt⟩
      rw [cellKeys_writeCell]
      exact hx

theorem cellKeys_eatPhase (w : World) (cid : Nat) (cell : Cell) (dead : List Nat) :
    ∀ x ∈ cellKeys w,
      x ∈ cellKeys (w.eatPhase cid cell dead).1 ∨
      (∃ ev, (w.eatPhase cid cell dead).2.2 = some ev ∧ ev.prey = x) := by
  intro x hx
  have hx1 : x ∈ cellKeys ({ w with food_system := (w.food_system.eat_food cell.x cell.y).2 } : World) := hx
  simp only [World.eatPhase]
  split
  · left
    show x ∈ cellKeys (World.writeCell _ cid _)
    rw [cellKeys_writeCell]
    exact hx
  · rcases cellKeys_try_eat _ cell x hx1 with hin | ⟨g, hg⟩
    · split
      · rename_i w2 pr heq
        left
        rw [heq] at hin
        exact hin
      · rename_i w2 heq
        left
        rw [heq] at hin
        exact hin
    · split
      · rename_i w2 pr heq
        rw [heq] at hg
        right
        refine ⟨_, rfl, ?_⟩
        injection hg with hg2
        rw [hg2]
      · rename_i w2 heq
        rw [heq] at hg
        simp at hg

/-- The behaviors lose at most the one cell reported as eaten. -/
theorem cellKeys_behaveCell (w : World) (o : CellOracle) (sd : Bool) (cid : Nat)
    (cell0 : Cell) (org : Organism) (dead : List Nat) :
    ∀ x ∈ cellKeys w,
      x ∈ cellKeys (behaveCell w o sd cid cell0 org dead).1 ∨
      (∃ ev, (behaveCell w o sd cid cell0 org dead).2.2 = some ev ∧ ev.prey = x) := by
  intro x hx
  simp only [behaveCell]
  by_cases hmv : ("CanMove" : String) ∈ org.traits <;>
    by_cases het : ("CanEat" : String) ∈ org.traits <;>
      simp only [hmv, het, if_true, if_false]
  · exact cellKeys_eatPhase _ cid _ dead x
      (by rw [show (World.move_cell _ cid _ o.movePicks).1 = (World.moveLoop _ cid _ _).1 from rfl,
              cellKeys_moveLoop, cellKeys_writeCell]; exact hx)
  · left
    show x ∈ cellKeys (World.move_cell _ cid _ o.movePicks).1
    rw [show (World.move_cell _ cid _ o.movePicks).1 = (World.moveLoop _ cid _ _).1 from rfl,
        cellKeys_moveLoop, cellKeys_writeCell]
    exact hx
  · exact cellKeys_eatPhase _ cid _ dead x (by rw [cellKeys_writeCell]; exact hx)
  · left
    show x ∈ cellKeys (World.writeCell _ cid _)
    rw [cellKeys_writeCell]
    exact hx

/-- One loop iteration appends to the event trace and loses at most the
cells it reports as eaten. -/
theorem processCell_keys (st : TickState) (o : CellOracle) (sd : Bool) (cid : Nat) :
    ∃ tail, (processCell st o sd cid).events = st.events ++ tail ∧
      ∀ x ∈ cellKeys st.w,
        x ∈ cellKeys (processCell st o sd cid).w ∨ x ∈ tail.map (fun e => e.prey) := by
  simp only [processCell]
  split
  · exact ⟨[], by simp, fun x hx => Or.inl hx⟩
  · split
    · exact ⟨[], by simp, fun x hx => Or.inl hx⟩
    · rename_i _ cell0 _ _ org _
      have hke := cellKeys_behaveCell st.w o sd cid cell0 org st.dead
      refine ⟨(match (behaveCell st.w o sd cid cell0 org st.dead).2.2 with
               | some ev => [ev] | none => []), ?_, ?_⟩
      · by_cases hd : (behaveCell st.w o sd cid cell0 org st.dead).2.1.energy ≤ 0
        · rw [if_pos hd]
        · rw [if_neg hd]
          by_cases hrep : (behaveCell st.w o sd cid cell0 org st.dead).2.1.energy >
              Config.REPRODUCTION_THRESHOLD
          · rw [if_pos hrep]
          · rw [if_neg hrep]
      · intro x hx
        rcases hke x hx with hin | ⟨ev, hev, hprey⟩
        · left
          by_cases hd : (behaveCell st.w o sd cid cell0 org st.dead).2.1.energy ≤ 0
          · rw [if_pos hd]
            exact hin
          · rw [if_neg hd]
            by_cases hrep : (behaveCell st.w o sd cid cell0 org st.dead).2.1.energy >
                Config.REPRODUCTION_THRESHOLD
            · rw [if_pos hrep]
              exact cellKeys_reproduceLoop _ cid _ org o.muts AXIS_DIRECTIONS 0 x hin
            · rw [if_neg hrep]
              exact hin
        · right
          rw [hev]
          simp [hprey]

theorem cellKeys_kill_subset (w : World) (cid : Nat) :
    ∀ x, x ∈ cellKeys (w.kill_cell cid) → x ∈ cellKeys w :=
  fun x hx => ((cellKeys_kill w cid x).mp hx).1

theorem foldl_kill_not_mem :
    ∀ (l : List Nat) (w : World) (x : Nat), x ∉ cellKeys w →
      x ∉ cellKeys (l.foldl (fun wa c => wa.kill_cell c) w) := by
  intro l
  induction l with
  | nil => exact fun w x h => h
  | cons c rest ih =>
      intro w x h
      exact ih _ x (fun hx => h (cellKeys_kill_subset w c x hx))

/-- The end-of-tick death pass removes every queued id from the store. -/
theorem foldl_kill_removes :
    ∀ (l : List Nat) (w : World) (cid : Nat), cid ∈ l →
      cid ∉ cellKeys (l.foldl (fun wa c => wa.kill_cell c) w) := by
  intro l
  induction l with
  | nil => intro w cid h; exact absurd h (List.not_mem_nil cid)
  | cons c rest ih =>
      intro w cid h
      rcases List.mem_cons.mp h with rfl | hr
      · exact foldl_kill_not_mem rest (w.kill_cell cid) cid
          (fun hx => ((cellKeys_kill w cid cid).mp hx).2 rfl)
      · exact ih _ cid hr

/-- Through the whole behavior loop, a cell id survives unless some
predation event names it as prey. -/
theorem foldl_process_keys (o : TickOracle) (sd : Bool) :
    ∀ (ids : List (Nat × Nat)) (st : TickState) (x : Nat),
      (x ∈ cellKeys st.w ∨ x ∈ st.events.map (fun e => e.prey)) →
      (x ∈ cellKeys (ids.foldl (fun s p => processCell s (o.cellO p.1) sd p.2) st).w ∨
       x ∈ (ids.foldl (fun s p => processCell s (o.cellO p.1) sd p.2) st).events.map
            (fun e => e.prey)) := by
  intro ids
  induction ids with
  | nil => intro st x h; exact h
  | cons p rest ih =>
      intro st x h
      apply ih
      rcases processCell_keys st (o.cellO p.1) sd p.2 with ⟨tail, hev, hkeys⟩
      rcases h with hk | he
      · rcases hkeys x hk with h1 | h2
        · exact Or.inl h1
        · right
          rw [hev, List.map_append]
          exact List.mem_append_right _ h2
      · right
        rw [hev, List.map_append]
        exact List.mem_append_left _ he

/-- The two-cell world of the C2 counterexample: organism 0's cell (id 0,
iterated first) has 4 energy and will drain to −2 on tick 30; organism 1's
cell (id 1, `[Cell][CanEat]`, iterated second) sits adjacent with no food
under it. -/
def W2 : World :=
  { width := 10, height := 10,
    cells := [(0, { id := 0, x := 2, y := 2, organism_id := 0, energy := 4, age := 0 }),
              (1, { id := 1, x := 2, y := 3, organism_id := 1, energy := 50, age := 0 })],
    organisms := [(0, { id := 0, genome := "[Cell]", traits := [("Cell" : String)],
                        cell_ids := [0], birth_tick := 0 }),
                  (1, { id := 1, genome := "[Cell][CanEat]",
                        traits := [("Cell" : String), ("CanEat" : String)],
                        cell_ids := [1], birth_tick := 0 })],
    walls := [],
    food_system := { width := 10, height := 10, food_grid := [], food_energy := [] },
    next_cell_id := 2, next_organism_id := 2, tick_counter := 29 }

def O2 : TickOracle :=
  { cellO := fun _ => { movePicks := fun _ => 0,
                        muts := fun _ => { no_mutation := true, kind := 0, pos := 0,
                                           charIdx := 0, traitIdx := 0 } },
    regen := { sampleX := fun _ => 0, sampleY := fun _ => 0, draw := fun _ => false } }

/-- C2 counterexample: in `W2`, cell 0 drains to energy −2 and is queued
for death, and the later-iterated cell 1 then preys on it within the same
tick (gaining `fdiv (−2) 2 = −1` energy) — the trace records a predation
whose prey was already queued, refuting "a queued-dead cell can never be
preyed upon by a later-iterated cell within that same tick".  Deferred
removal keeps the queued cell visible, which is exactly why it CAN still
be eaten. -/
theorem c2_counterexample :
    ¬ (∀ (w : World) (o : TickOracle), ∀ e ∈ (runTick w o).2.events,
        e.preyWasQueued = false) := by
  intro h
  have hm : ({ predator := 1, prey := 0, gained := -1, preyWasQueued := true } : PredEvent) ∈
      (runTick W2 O2).2.events := by decide
  have hfalse := h W2 O2 _ hm
  exact absurd hfalse (by decide)

/-- C2 amended: queued-dead cells are removed only after all cells'
behaviors have run — during the behavior loop a cell disappears from the
store only by being preyed upon (first conjunct: any id live at tick start
is either still in the store when the loop ends or named as prey by some
predation event of this tick); every id queued for death is gone after the
end-of-tick death pass (second conjunct).  Because removal is deferred, a
newly-fatal cell remains visible and CAN be preyed upon by a later-iterated
cell (shown concretely by the counterexample theorem). -/
theorem c2_amended :
    ∀ (w : World) (o : TickOracle),
      (∀ cid ∈ cellKeys w,
        cid ∈ cellKeys (runTick w o).2.w ∨
        cid ∈ (runTick w o).2.events.map (fun e => e.prey)) ∧
      (∀ cid ∈ (runTick w o).2.dead, cid ∉ cellKeys (runTick w o).1) := by
  intro w o
  constructor
  · intro cid hcid
    exact foldl_process_keys o _ _ { w := { w with tick_counter := w.tick_counter + 1 },
                                     dead := [], events := [] } cid (Or.inl hcid)
  · intro cid hdead
    exact foldl_kill_removes _ _ cid hdead

/-- Witness for C2 (amended) on a one-cell world. -/
theorem c2_amended_witness :
    (0 : Nat) ∈ cellKeys (runTick
      { width := 10, height := 10,
        cells := [(0, { id := 0, x := 5, y := 5, organism_id := 0, energy := 90, age := 0 })],
        organisms := [(0, { id := 0, genome := "[Cell]", traits := [("Cell" : String)],
                            cell_ids := [0], birth_tick := 0 })],
        walls := [],
        food_system := { width := 10, height := 10, food_grid := [], food_energy := [] },
        next_cell_id := 1, next_organism_id := 1, tick_counter := 0 }
      { cellO := fun _ => { movePicks := fun _ => 0,
                            muts := fun _ => { no_mutation := true, kind := 0, pos := 0,
                                               charIdx := 0, traitIdx := 0 } },
        regen := { sampleX := fun _ => 0, sampleY := fun _ => 0, draw := fun _ => false } }).2.w ∨
    (0 : Nat) ∈ (runTick
      { width := 10, height := 10,
        cells := [(0, { id := 0, x := 5, y := 5, organism_id := 0, energy := 90, age := 0 })],
        organisms := [(0, { id := 0, genome := "[Cell]", traits := [("Cell" : String)],
                            cell_ids := [0], birth_tick := 0 })],
        walls := [],
        food_system := { width := 10, height := 10, food_grid := [], food_energy := [] },
        next_cell_id := 1, next_organism_id := 1, tick_counter := 0 }
      { cellO := fun _ => { movePicks := fun _ => 0,
                            muts := fun _ => { no_mutation := true, kind := 0, pos := 0,
                                               charIdx := 0, traitIdx := 0 } },
        regen := { sampleX := fun _ => 0, sampleY := fun _ => 0, draw := fun _ => false } }).2.events.map
        (fun e => e.prey) :=
  (c2_amended
    { width := 10, height := 10,
      cells := [(0, { id := 0, x := 5, y := 5, organism_id := 0, energy := 90, age := 0 })],
      organisms := [(0, { id := 0, genome := "[Cell]", traits := [("Cell" : String)],
                          cell_ids := [0], birth_tick := 0 })],
      walls := [],
      food_system := { width := 10, height := 10, food_grid := [], food_energy := [] },
      next_cell_id := 1, next_organism_id := 1, tick_counter := 0 }
    { cellO := fun _ => { movePicks := fun _ => 0,
                          muts := fun _ => { no_mutation := true, kind := 0, pos := 0,
                                             charIdx := 0, traitIdx := 0 } },
      regen := { sampleX := fun _ => 0, sampleY := fun _ => 0, draw := fun _ => false } }).1
    0 (by decide)

/-- World._try_eat_cell, written out by cases on the neighbor scan. -/
theorem try_eat_cell_eq (w : World) (pred : Cell) :
    w.try_eat_cell pred =
      (match (w.get_adjacent_cells pred.x pred.y).find?
          (fun t => t.organism_id ≠ pred.organism_id) with
       | none => (w, none)
       | some target =>
          ((w.writeCell pred.id
              { pred with energy := pred.energy + Int.fdiv target.energy 2 }).kill_cell target.id,
           some (target.id, Int.fdiv target.energy 2))) := rfl

/-- C6: for a cell with the CanEat trait processed in a tick (the eating
step, world.py:177-192): if food lies at the cell's own position (its
stored energy being positive, as is every food energy the engine creates —
25 for spawned or regenerated food, 15 for decay food), the cell consumes
it, gains exactly that energy, the food is removed, and no predation
happens (no cell is removed).  Only if no food was there does the cell
attempt predation: it scans the 8 neighbors for the first cell of a
different organism; if none exists, nothing changes at all; otherwise that
single adjacent foreign cell — and no other — is killed, and the predator
gains exactly `floor(prey_energy / 2)`. -/
theorem c6_eat_phase_spec :
    ∀ (w : World) (cid : Nat) (cell : Cell) (dead : List Nat),
      (∀ (p : Pos) (e : Int), lookupEnergy w.food_system.food_energy p = some e → 0 < e) →
      ((∀ e : Int, lookupEnergy w.food_system.food_energy (cell.x, cell.y) = some e →
        (w.eatPhase cid cell dead).2.2 = none ∧
        (w.eatPhase cid cell dead).2.1.energy = cell.energy + e ∧
        cellKeys (w.eatPhase cid cell dead).1 = cellKeys w ∧
        lookupEnergy (w.eatPhase cid cell dead).1.food_system.food_energy (cell.x, cell.y) = none) ∧
      (lookupEnergy w.food_system.food_energy (cell.x, cell.y) = none →
        (match (w.get_adjacent_cells cell.x cell.y).find?
            (fun t => t.organism_id ≠ cell.organism_id) with
         | none => w.eatPhase cid cell dead = (w, cell, none)
         | some t =>
            t ∈ w.get_adjacent_cells cell.x cell.y ∧
            t.organism_id ≠ cell.organism_id ∧
            (w.eatPhase cid cell dead).2.2 =
              some { predator := cid, prey := t.id, gained := Int.fdiv t.energy 2,
                     preyWasQueued := decide (t.id ∈ dead) } ∧
            (w.eatPhase cid cell dead).2.1.energy = cell.energy + Int.fdiv t.energy 2 ∧
            (∀ x, x ∈ cellKeys (w.eatPhase cid cell dead).1 ↔
              (x ∈ cellKeys w ∧ x ≠ t.id))))) := by
  intro w cid cell dead hpos
  constructor
  · intro e he
    have hr : w.food_system.eat_food cell.x cell.y =
        (e, { w.food_system with
              food_energy := w.food_system.food_energy.filter (fun q => q.1 ≠ (cell.x, cell.y)),
              food_grid := w.food_system.food_grid.filter (fun p => p ≠ (cell.x, cell.y)) }) := by
      unfold FoodSystem.eat_food
      rw [he]
    simp only [World.eatPhase, hr]
    rw [if_pos (hpos _ e he)]
    refine ⟨rfl, rfl, cellKeys_writeCell _ _ _, ?_⟩
    show ((w.food_system.food_energy.filter (fun q => q.1 ≠ (cell.x, cell.y))).find?
        (fun q => q.1 = (cell.x, cell.y))).map _ = none
    rw [find?_filter_ne_none]
    rfl
  · intro hn
    have hr : w.food_system.eat_food cell.x cell.y = (0, w.food_system) := by
      unfold FoodSystem.eat_food
      rw [hn]
    have hw1 : ({ w with food_system := (w.food_system.eat_food cell.x cell.y).2 } : World) = w := by
      rw [hr]
    split
    · rename_i hfind
      show w.eatPhase cid cell dead = (w, cell, none)
      simp only [World.eatPhase, hr, hw1]
      rw [if_neg (lt_irrefl (0 : Int))]
      rw [try_eat_cell_eq, hfind]
    · rename_i t hfind
      have hmem : t ∈ w.get_adjacent_cells cell.x cell.y := List.mem_of_find?_eq_some hfind
      have hforeign : t.organism_id ≠ cell.organism_id := by
        have := List.find?_some hfind
        simpa using this
      have heat : w.eatPhase cid cell dead =
          (((w.writeCell cell.id
              { cell with energy := cell.energy + Int.fdiv t.energy 2 }).kill_cell t.id),
           { cell with energy := cell.energy + Int.fdiv t.energy 2 },
           some { predator := cid, prey := t.id, gained := Int.fdiv t.energy 2,
                  preyWasQueued := decide (t.id ∈ dead) }) := by
        simp only [World.eatPhase, hr, hw1]
        rw [if_neg (lt_irrefl (0 : Int))]
        rw [try_eat_cell_eq, hfind]
      refine ⟨hmem, hforeign, by rw [heat], by rw [heat], ?_⟩
      intro x
      rw [heat]
      show x ∈ cellKeys (World.kill_cell _ t.id) ↔ _
      rw [cellKeys_kill]
      rw [cellKeys_writeCell]

/-- Witness for C6 at a concrete predator-prey configuration with no food. -/
theorem c6_eat_phase_spec_witness :
    (World.eatPhase
      { width := 10, height := 10,
        cells := [(0, { id := 0, x := 4, y := 4, organism_id := 0, energy := 60, age := 0 }),
                  (1, { id := 1, x := 4, y := 5, organism_id := 1, energy := 41, age := 0 })],
        organisms := [(0, { id := 0, genome := "[Cell][CanEat]",
                            traits := [("Cell" : String), ("CanEat" : String)],
                            cell_ids := [0], birth_tick := 0 }),
                      (1, { id := 1, genome := "[Cell]", traits := [("Cell" : String)],
                            cell_ids := [1], birth_tick := 0 })],
        walls := [],
        food_system := { width := 10, height := 10, food_grid := [], food_energy := [] },
        next_cell_id := 2, next_organism_id := 2, tick_counter := 0 }
      0 { id := 0, x := 4, y := 4, organism_id := 0, energy := 60, age := 0 } []).2.2 =
      some { predator := 0, prey := 1, gained := 20, preyWasQueued := false } := by
  have h := (c6_eat_phase_spec
    { width := 10, height := 10,
      cells := [(0, { id := 0, x := 4, y := 4, organism_id := 0, energy := 60, age := 0 }),
                (1, { id := 1, x := 4, y := 5, organism_id := 1, energy := 41, age := 0 })],
      organisms := [(0, { id := 0, genome := "[Cell][CanEat]",
                          traits := [("Cell" : String), ("CanEat" : String)],
                          cell_ids := [0], birth_tick := 0 }),
                    (1, { id := 1, genome := "[Cell]", traits := [("Cell" : String)],
                          cell_ids := [1], birth_tick := 0 })],
      walls := [],
      food_system := { width := 10, height := 10, food_grid := [], food_energy := [] },
      next_cell_id := 2, next_organism_id := 2, tick_counter := 0 }
    0 { id := 0, x := 4, y := 4, organism_id := 0, energy := 60, age := 0 } []
    (fun p e hpe => by simp [lookupEnergy] at hpe)).2 (by decide)
  exact h.2.2.1

/-! ### Occupancy machinery for the stacking-limit invariant (C8) -/

/-- Occupant count of a raw cell store. -/
def occL (l : List (Nat × Cell)) (x y : Int) : Nat :=
  (l.filter (fun e => e.2.x = x ∧ e.2.y = y)).length

theorem occ_eq (w : World) (x y : Int) : occ w x y = occL w.cells x y := by
  unfold occ World.getCellsAt occL
  rw [List.length_map]

/-- The reachable-state invariants of the cell store: ids are unique, below
the allocation counter, and stored consistently; no position is over the
stacking limit. -/
def WFgood (w : World) : Prop :=
  (cellKeys w).Nodup ∧
  (∀ k ∈ cellKeys w, k < w.next_cell_id) ∧
  (∀ e ∈ w.cells, e.2.id = e.1) ∧
  (∀ x y : Int, occ w x y ≤ Config.MAX_CELLS_PER_LOCATION)

theorem setEntry_not_mem (l : List (Nat × Cell)) (cid : Nat) (c : Cell)
    (h : cid ∉ l.map (fun e => e.1)) :
    l.map (fun e => if e.1 = cid then (cid, c) else e) = l := by
  induction l with
  | nil => rfl
  | cons e rest ih =>
      simp only [List.map_cons, List.mem_cons, not_or] at h ⊢
      rw [if_neg (fun he => h.1 (by rw [he])), ih h.2]

theorem occL_cons (e : Nat × Cell) (l : List (Nat × Cell)) (x y : Int) :
    occL (e :: l) x y = (if e.2.x = x ∧ e.2.y = y then 1 else 0) + occL l x y := by
  unfold occL
  rw [List.filter_cons]
  by_cases h : e.2.x = x ∧ e.2.y = y
  · simp [h]
    omega
  · simp [h]

theorem occL_setEntry (cid : Nat) (c : Cell) :
    ∀ (l : List (Nat × Cell)), (l.map (fun e => e.1)).Nodup →
      ∀ en, l.find? (fun e => e.1 = cid) = some en →
      ∀ x y : Int,
        occL (l.map (fun e => if e.1 = cid then (cid, c) else e)) x y +
          (if en.2.x = x ∧ en.2.y = y then 1 else 0) =
        occL l x y + (if c.x = x ∧ c.y = y then 1 else 0) := by
  intro l
  induction l with
  | nil => intro _ en hf; simp at hf
  | cons e rest ih =>
      intro hnod en hf x y
      rw [List.map_cons, List.nodup_cons] at hnod
      by_cases he : e.1 = cid
      · rw [List.find?_cons_of_pos _ (by simpa using he)] at hf
        injection hf with hf
        subst hf
        rw [List.map_cons, if_pos he, occL_cons, occL_cons,
            setEntry_not_mem rest cid c (by rw [← he]; exact hnod.1)]
        have hpr : ((cid, c) : Nat × Cell).2 = c := rfl
        rw [hpr]
        omega
      · rw [List.find?_cons_of_neg _ (by simpa using he)] at hf
        have := ih hnod.2 en hf x y
        rw [List.map_cons, if_neg he, occL_cons, occL_cons]
        omega

theorem occL_append_single (l : List (Nat × Cell)) (k : Nat) (c : Cell) (x y : Int) :
    occL (l ++ [(k, c)]) x y = occL l x y + (if c.x = x ∧ c.y = y then 1 else 0) := by
  unfold occL
  rw [List.filter_append, List.length_append]
  congr 1
  rw [List.filter_cons]
  by_cases h : c.x = x ∧ c.y = y
  · simp [h]
  · simp [h]

theorem occL_filter_le (l : List (Nat × Cell)) (p : Nat × Cell → Bool) (x y : Int) :
    occL (l.filter p) x y ≤ occL l x y := by
  unfold occL
  exact ((List.filter_sublist l).filter _).length_le

/-- From the per-entry occupancy bound (decidable, used as the theorem's
hypothesis) to the bound at every position. -/
theorem occAll_of_cells (w : World)
    (h : ∀ e ∈ w.cells, occ w e.2.x e.2.y ≤ Config.MAX_CELLS_PER_LOCATION) :
    ∀ x y : Int, occ w x y ≤ Config.MAX_CELLS_PER_LOCATION := by
  intro x y
  rcases hz : (w.cells.filter (fun e => e.2.x = x ∧ e.2.y = y)) with _ | ⟨e, rest⟩
  · rw [occ_eq]
    unfold occL
    rw [hz]
    exact Nat.zero_le _
  · have hmem : e ∈ w.cells.filter (fun e => e.2.x = x ∧ e.2.y = y) := by
      rw [hz]; exact List.mem_cons_self e rest
    have he := List.mem_filter.mp hmem
    have hp : e.2.x = x ∧ e.2.y = y := by simpa using he.2
    have := h e he.1
    rw [hp.1, hp.2] at this
    exact this

theorem mem_keys_of_lookup (w : World) (cid : Nat) (c : Cell)
    (h : w.lookupCell cid = some c) : cid ∈ cellKeys w := by
  by_contra hn
  rw [← lookupCell_none_iff] at hn
  rw [h] at hn
  exact absurd hn (by simp)

theorem lookup_some_find? (w : World) (cid : Nat) (c : Cell)
    (h : w.lookupCell cid = some c) :
    w.cells.find? (fun e => e.1 = cid) = some (cid, c) := by
  unfold World.lookupCell at h
  rcases hf : w.cells.find? (fun e => e.1 = cid) with _ | en
  · rw [hf] at h; simp at h
  · rw [hf] at h
    have hk : en.1 = cid := by simpa using List.find?_some hf
    have hv : en.2 = c := by simpa using h
    rw [show ((cid, c) : Nat × Cell) = en from Prod.ext hk.symm hv.symm]
    exact hf

theorem find?_setEntry_self (cid : Nat) (c : Cell) :
    ∀ l : List (Nat × Cell), cid ∈ l.map (fun e => e.1) →
      (l.map (fun e => if e.1 = cid then (cid, c) else e)).find? (fun e => e.1 = cid) =
        some (cid, c) := by
  intro l
  induction l with
  | nil => intro h; simp at h
  | cons e rest ih =>
      intro h
      rw [List.map_cons]
      by_cases he : e.1 = cid
      · rw [if_pos he, List.find?_cons_of_pos _ (by simp)]
      · rw [if_neg he, List.find?_cons_of_neg _ (by simpa using he)]
        rw [List.map_cons, List.mem_cons] at h
        exact ih (h.resolve_left (fun hc => he hc.symm))

theorem lookupCell_writeCell_self (w : World) (cid : Nat) (c : Cell)
    (h : cid ∈ cellKeys w) : (w.writeCell cid c).lookupCell cid = some c := by
  unfold World.lookupCell World.writeCell
  show ((w.cells.map (fun e => if e.1 = cid then (cid, c) else e)).find?
      (fun e => e.1 = cid)).map _ = some c
  rw [find?_setEntry_self cid c w.cells h]
  rfl

theorem find?_append_of_some {α : Type} (p : α → Bool) :
    ∀ (l1 l2 : List α) (a : α), l1.find? p = some a → (l1 ++ l2).find? p = some a := by
  intro l1
  induction l1 with
  | nil => intro l2 a h; simp at h
  | cons e rest ih =>
      intro l2 a h
      rw [List.find?_cons] at h
      rw [List.cons_append, List.find?_cons]
      by_cases he : p e = true
      · rw [he] at h ⊢
        exact h
      · have he' : p e = false := by simpa using he
        rw [he'] at h ⊢
        exact ih l2 a h

theorem lookupCell_append (w : World) (l2 : List (Nat × Cell)) (cid : Nat) (c : Cell)
    (h : w.lookupCell cid = some c) :
    ({ w with cells := w.cells ++ l2 } : World).lookupCell cid = some c := by
  unfold World.lookupCell at *
  rcases hf : w.cells.find? (fun e => e.1 = cid) with _ | en
  · rw [hf] at h; simp at h
  · rw [hf] at h
    show ((w.cells ++ l2).find? (fun e => e.1 = cid)).map _ = some c
    rw [find?_append_of_some _ _ _ _ hf]
    exact h

/-- Writing a cell object back under its id preserves the invariants:
either the position is unchanged (in-place mutation of age/energy), or the
target position was checked to be under the stacking limit (movement). -/
theorem WFgood_writeCell (w : World) (cid : Nat) (c c0 : Cell)
    (hw : WFgood w) (hl : w.lookupCell cid = some c0) (hid : c.id = cid)
    (hok : (c.x = c0.x ∧ c.y = c0.y) ∨ occ w c.x c.y < Config.MAX_CELLS_PER_LOCATION) :
    WFgood (w.writeCell cid c) ∧
    ((c.x = c0.x ∧ c.y = c0.y) → ∀ x y, occ (w.writeCell cid c) x y = occ w x y) := by
  have hfind := lookup_some_find? w cid c0 hl
  have heq : ∀ x y : Int,
      occ (w.writeCell cid c) x y + (if c0.x = x ∧ c0.y = y then 1 else 0) =
      occ w x y + (if c.x = x ∧ c.y = y then 1 else 0) := by
    intro x y
    rw [occ_eq, occ_eq]
    exact occL_setEntry cid c w.cells hw.1 (cid, c0) hfind x y
  have hsame : (c.x = c0.x ∧ c.y = c0.y) → ∀ x y, occ (w.writeCell cid c) x y = occ w x y := by
    rintro ⟨hcx, hcy⟩ x y
    have h := heq x y
    rw [hcx, hcy] at h
    omega
  refine ⟨⟨?_, ?_, ?_, ?_⟩, hsame⟩
  · show (cellKeys (w.writeCell cid c)).Nodup
    rw [cellKeys_writeCell]
    exact hw.1
  · intro k hk
    rw [cellKeys_writeCell] at hk
    exact hw.2.1 k hk
  · intro e he
    rcases List.mem_map.mp he with ⟨e0, he0, hfe⟩
    rw [← hfe]
    by_cases h0 : e0.1 = cid
    · rw [if_pos h0]
      exact hid
    · rw [if_neg h0]
      exact hw.2.2.1 e0 he0
  · rcases hok with hpos | hlt
    · intro x y
      rw [hsame hpos x y]
      exact hw.2.2.2 x y
    · intro x y
      have h := heq x y
      have hball := hw.2.2.2 x y
      by_cases h00 : c0.x = x ∧ c0.y = y
      · rw [if_pos h00] at h
        by_cases hcc : c.x = x ∧ c.y = y
        · rw [if_pos hcc] at h
          omega
        · rw [if_neg hcc] at h
          omega
      · rw [if_neg h00] at h
        by_cases hcc : c.x = x ∧ c.y = y
        · rw [if_pos hcc] at h
          rcases hcc with ⟨hcx, hcy⟩
          rw [hcx, hcy] at hlt
          omega
        · rw [if_neg hcc] at h
          omega

/-- Killing a cell preserves the invariants and never raises occupancy. -/
theorem WFgood_kill (w : World) (cid : Nat) (hw : WFgood w) :
    WFgood (w.kill_cell cid) ∧ ∀ x y, occ (w.kill_cell cid) x y ≤ occ w x y := by
  rcases h : w.lookupCell cid with _ | cell
  · rw [kill_cell_missing w cid h]
    exact ⟨hw, fun x y => le_refl _⟩
  · have hkw : w.kill_cell cid = { w with
        food_system := w.food_system.spawn_food cell.x cell.y Config.DECAY_FOOD_ENERGY,
        organisms := killOrgUpdate w.organisms cell.organism_id cid,
        cells := w.cells.filter (fun e => e.1 ≠ cid) } := by
      unfold World.kill_cell
      rw [h]
    rw [hkw]
    have hsub : List.Sublist ((w.cells.filter (fun e => e.1 ≠ cid)).map (fun e => e.1))
        (w.cells.map (fun e => e.1)) := (List.filter_sublist w.cells).map _
    refine ⟨⟨?_, ?_, ?_, ?_⟩, ?_⟩
    · exact hw.1.sublist hsub
    · intro k hk
      exact hw.2.1 k (hsub.mem hk)
    · intro e he
      exact hw.2.2.1 e (List.mem_filter.mp he).1
    · intro x y
      rw [occ_eq]
      show occL (w.cells.filter (fun e => e.1 ≠ cid)) x y ≤ _
      calc occL (w.cells.filter (fun e => e.1 ≠ cid)) x y
          ≤ occL w.cells x y := occL_filter_le _ _ x y
        _ ≤ Config.MAX_CELLS_PER_LOCATION := by rw [← occ_eq]; exact hw.2.2.2 x y
    · intro x y
      rw [occ_eq, occ_eq]
      show occL (w.cells.filter (fun e => e.1 ≠ cid)) x y ≤ occL w.cells x y
      exact occL_filter_le _ _ x y

/-- With unique keys, a stored entry is what a key-lookup finds. -/
theorem find?_of_mem_nodup (k : Nat) (a : Cell) :
    ∀ l : List (Nat × Cell), (l.map (fun e => e.1)).Nodup → (k, a) ∈ l →
      l.find? (fun e => e.1 = k) = some (k, a) := by
  intro l
  induction l with
  | nil => intro _ h; simp at h
  | cons e rest ih =>
      intro hnod hm
      rw [List.map_cons, List.nodup_cons] at hnod
      rcases List.mem_cons.mp hm with rfl | hr
      · exact List.find?_cons_of_pos _ (by simp)
      · by_cases he : e.1 = k
        · exfalso
          apply hnod.1
          rw [he]
          exact List.mem_map.mpr ⟨(k, a), hr, rfl⟩
        · rw [List.find?_cons_of_neg _ (by simpa using he)]
          exact ih hnod.2 hr

/-- Every cell returned by an exact-position query is a stored entry's
payload. -/
theorem mem_cells_of_getCellsAt (w : World) (x y : Int) (t : Cell)
    (h : t ∈ w.getCellsAt x y) : ∃ k, (k, t) ∈ w.cells := by
  unfold World.getCellsAt at h
  rcases List.mem_map.mp h with ⟨e, he, hfe⟩
  exact ⟨e.1, by rw [show (e.1, t) = e from Prod.ext rfl hfe.symm]; exact (List.mem_filter.mp he).1⟩

theorem mem_cells_of_adjacent (w : World) (x y : Int) (t : Cell)
    (h : t ∈ w.get_adjacent_cells x y) : ∃ k, (k, t) ∈ w.cells := by
  unfold World.get_adjacent_cells at h
  rcases List.mem_flatten.mp h with ⟨l, hl, hm⟩
  rcases List.mem_map.mp hl with ⟨d, _, hd⟩
  exact mem_cells_of_getCellsAt w _ _ t (hd ▸ hm)

/-- If every element satisfying `p` also satisfies the filter predicate,
the first `p`-element is unaffected by the filter. -/
theorem find?_filter_of_imp {α : Type} (p q : α → Bool)
    (himp : ∀ a, p a = true → q a = true) :
    ∀ l : List α, (l.filter q).find? p = l.find? p := by
  intro l
  induction l with
  | nil => rfl
  | cons e rest ih =>
      rw [List.filter_cons]
      by_cases hp : p e = true
      · rw [if_pos (himp e hp), List.find?_cons_of_pos _ hp, List.find?_cons_of_pos _ hp]
      · by_cases hq : q e = true
        · rw [if_pos hq, List.find?_cons_of_neg _ (by simpa using hp),
              List.find?_cons_of_neg _ (by simpa using hp)]
          exact ih
        · rw [if_neg (by simpa using hq), List.find?_cons_of_neg _ (by simpa using hp)]
          exact ih

/-- A kill of a different id does not disturb a lookup. -/
theorem lookupCell_kill_other (w : World) (cid tid : Nat) (hne : cid ≠ tid) :
    (w.kill_cell tid).lookupCell cid = w.lookupCell cid := by
  unfold World.kill_cell
  rcases h : w.lookupCell tid with _ | cell
  · rfl
  · show ((w.cells.filter (fun e => e.1 ≠ tid)).find? (fun e => e.1 = cid)).map _ = _
    rw [find?_filter_of_imp _ _ (fun a ha => by
      simp only [decide_eq_true_eq] at ha ⊢
      rw [ha]
      exact hne)]
    rfl

/-- The move loop preserves the invariants (the target's occupancy is
checked before the write) and keeps the moved cell retrievable. -/
theorem WFgood_moveLoop (w : World) (cid : Nat) (cell : Cell)
    (hw : WFgood w) (hl : w.lookupCell cid = some cell) (hid : cell.id = cid) :
    ∀ dirs : List Pos,
      WFgood (w.moveLoop cid cell dirs).1 ∧
      (w.moveLoop cid cell dirs).1.lookupCell cid = some (w.moveLoop cid cell dirs).2.1 ∧
      (w.moveLoop cid cell dirs).2.1.id = cid := by
  intro dirs
  induction dirs with
  | nil => exact ⟨hw, hl, hid⟩
  | cons d rest ih =>
      simp only [World.moveLoop]
      by_cases h1 : 0 ≤ cell.x + d.1 ∧ cell.x + d.1 < w.width ∧ 0 ≤ cell.y + d.2 ∧
          cell.y + d.2 < w.height ∧ ((cell.x + d.1, cell.y + d.2) : Pos) ∉ w.walls
      · rw [if_pos h1]
        by_cases h2 : (w.getCellsAt (cell.x + d.1) (cell.y + d.2)).length <
            Config.MAX_CELLS_PER_LOCATION
        · rw [if_pos h2]
          have hocc : occ w (cell.x + d.1) (cell.y + d.2) < Config.MAX_CELLS_PER_LOCATION := h2
          refine ⟨(WFgood_writeCell w cid
            { cell with x := cell.x + d.1, y := cell.y + d.2,
                        energy := cell.energy - Config.MOVEMENT_COST }
            cell hw hl hid (Or.inr hocc)).1, ?_, hid⟩
          exact lookupCell_writeCell_self w cid _ (mem_keys_of_lookup w cid cell hl)
        · rw [if_neg h2]
          exact ih
      · rw [if_neg h1]
        exact ih

/-- Predation preserves the invariants and leaves the predator's entry in
the store with the transferred energy. -/
theorem WFgood_try_eat (w : World) (pred : Cell)
    (hw : WFgood w) (hl : w.lookupCell pred.id = some pred) :
    WFgood (w.try_eat_cell pred).1 ∧
    (w.try_eat_cell pred).1.lookupCell pred.id =
      some (match (w.try_eat_cell pred).2 with
            | some pr => { pred with energy := pred.energy + pr.2 }
            | none => pred) := by
  rw [try_eat_cell_eq]
  split
  · exact ⟨hw, hl⟩
  · rename_i target hfind
    have hforeign : target.organism_id ≠ pred.organism_id := by
      simpa using List.find?_some hfind
    have htmem : target ∈ w.get_adjacent_cells pred.x pred.y :=
      List.mem_of_find?_eq_some hfind
    rcases mem_cells_of_adjacent w pred.x pred.y target htmem with ⟨k, hkmem⟩
    have htid : target.id = k := hw.2.2.1 (k, target) hkmem
    have htne : target.id ≠ pred.id := by
      intro hsame
      have hself := find?_of_mem_nodup k target w.cells hw.1 hkmem
      rw [← htid, hsame] at hself
      have := lookup_some_find? w pred.id pred hl
      rw [this] at hself
      injection hself with hself
      have : target = pred := congrArg Prod.snd hself.symm
      exact hforeign (by rw [this])
    have hwrite := WFgood_writeCell w pred.id
      { pred with energy := pred.energy + Int.fdiv target.energy 2 } pred hw hl rfl
      (Or.inl ⟨rfl, rfl⟩)
    have hkill := WFgood_kill
      (w.writeCell pred.id { pred with energy := pred.energy + Int.fdiv target.energy 2 })
      target.id hwrite.1
    refine ⟨hkill.1, ?_⟩
    show ((w.writeCell pred.id
        { pred with energy := pred.energy + Int.fdiv target.energy 2 }).kill_cell
          target.id).lookupCell pred.id =
      some { pred with energy := pred.energy + Int.fdiv target.energy 2 }
    rw [lookupCell_kill_other _ pred.id target.id (fun hc => htne hc.symm)]
    exact lookupCell_writeCell_self w pred.id _ (mem_keys_of_lookup w pred.id pred hl)

/-- The eating step preserves the invariants and keeps the eater's entry in
sync with the returned cell object. -/
theorem WFgood_eatPhase (w : World) (cid : Nat) (cell : Cell) (dead : List Nat)
    (hw : WFgood w) (hl : w.lookupCell cid = some cell) (hid : cell.id = cid) :
    WFgood (w.eatPhase cid cell dead).1 ∧
    (w.eatPhase cid cell dead).1.lookupCell cid = some (w.eatPhase cid cell dead).2.1 ∧
    (w.eatPhase cid cell dead).2.1.id = cid := by
  have hw1 : WFgood ({ w with food_system := (w.food_system.eat_food cell.x cell.y).2 } : World) := hw
  have hl1 : ({ w with food_system := (w.food_system.eat_food cell.x cell.y).2 } : World).lookupCell cid
      = some cell := hl
  simp only [World.eatPhase]
  split
  · refine ⟨(WFgood_writeCell _ cid
      { cell with energy := cell.energy + (w.food_system.eat_food cell.x cell.y).1 }
      cell hw1 hl1 hid (Or.inl ⟨rfl, rfl⟩)).1, ?_, hid⟩
    exact lookupCell_writeCell_self _ cid _ (mem_keys_of_lookup _ cid cell hl1)
  · have hpred := WFgood_try_eat
      ({ w with food_system := (w.food_system.eat_food cell.x cell.y).2 } : World) cell hw1
      (by rw [hid]; exact hl1)
    split
    · rename_i w2 pr heq
      rw [heq] at hpred
      refine ⟨hpred.1, ?_, hid⟩
      rw [← hid]
      exact hpred.2
    · rename_i w2 heq
      rw [heq] at hpred
      refine ⟨hpred.1, ?_, hid⟩
      rw [← hid]
      exact hpred.2

theorem agedCell_x (cell0 : Cell) (org : Organism) (sd : Bool) :
    (agedCell cell0 org sd).x = cell0.x := by
  unfold agedCell
  cases sd
  · rfl
  · rfl

theorem agedCell_y (cell0 : Cell) (org : Organism) (sd : Bool) :
    (agedCell cell0 org sd).y = cell0.y := by
  unfold agedCell
  cases sd
  · rfl
  · rfl

theorem agedCell_id (cell0 : Cell) (org : Organism) (sd : Bool) :
    (agedCell cell0 org sd).id = cell0.id := by
  unfold agedCell
  cases sd
  · rfl
  · rfl

/-- The whole age/drain/move/eat chain preserves the invariants. -/
theorem WFgood_behaveCell (w : World) (o : CellOracle) (sd : Bool) (cid : Nat)
    (cell0 : Cell) (org : Organism) (dead : List Nat)
    (hw : WFgood w) (hl : w.lookupCell cid = some cell0) (hid : cell0.id = cid) :
    WFgood (behaveCell w o sd cid cell0 org dead).1 ∧
    (behaveCell w o sd cid cell0 org dead).1.lookupCell cid =
      some (behaveCell w o sd cid cell0 org dead).2.1 ∧
    (behaveCell w o sd cid cell0 org dead).2.1.id = cid := by
  have hid2 : (agedCell cell0 org sd).id = cid := by rw [agedCell_id]; exact hid
  have hw2 := (WFgood_writeCell w cid (agedCell cell0 org sd) cell0 hw hl hid2
    (Or.inl ⟨agedCell_x cell0 org sd, agedCell_y cell0 org sd⟩)).1
  have hl2 : (w.writeCell cid (agedCell cell0 org sd)).lookupCell cid =
      some (agedCell cell0 org sd) :=
    lookupCell_writeCell_self w cid _ (mem_keys_of_lookup w cid cell0 hl)
  simp only [behaveCell]
  by_cases hmv : ("CanMove" : String) ∈ org.traits
  · rw [if_pos hmv]
    have hm := WFgood_moveLoop (w.writeCell cid (agedCell cell0 org sd)) cid
      (agedCell cell0 org sd) hw2 hl2 hid2 (shuffled_directions o.movePicks)
    by_cases het : ("CanEat" : String) ∈ org.traits
    · rw [if_pos het]
      exact WFgood_eatPhase _ cid _ dead hm.1 hm.2.1 hm.2.2
    · rw [if_neg het]
      exact ⟨hm.1, hm.2.1, hm.2.2⟩
  · rw [if_neg hmv]
    by_cases het : ("CanEat" : String) ∈ org.traits
    · rw [if_pos het]
      exact WFgood_eatPhase _ cid _ dead hw2 hl2 hid2
    · rw [if_neg het]
      exact ⟨hw2, hl2, hid2⟩

/-- Appending a freshly-allocated cell at a position that was checked to be
under the stacking limit preserves the invariants, whatever happens to the
organism table. -/
theorem WFgood_appendCell (w : World) (c : Cell) (orgs' : List (Nat × Organism)) (noid : Nat)
    (hw : WFgood w) (hcid : c.id = w.next_cell_id)
    (hocc : occ w c.x c.y < Config.MAX_CELLS_PER_LOCATION) :
    WFgood
      { w with
          organisms := orgs', cells := w.cells ++ [(w.next_cell_id, c)],
          next_organism_id := noid, next_cell_id := w.next_cell_id + 1 } := by
  have hkeys : cellKeys
      { w with
          organisms := orgs', cells := w.cells ++ [(w.next_cell_id, c)],
          next_organism_id := noid, next_cell_id := w.next_cell_id + 1 } =
      cellKeys w ++ [w.next_cell_id] := by
    show (w.cells ++ [(w.next_cell_id, c)]).map (fun e => e.1) = _
    rw [List.map_append]
    rfl
  refine ⟨?_, ?_, ?_, ?_⟩
  · rw [hkeys]
    rw [List.nodup_append]
    refine ⟨hw.1, List.nodup_singleton _, ?_⟩
    intro a ha hb
    rw [List.mem_singleton] at hb
    subst hb
    exact absurd (hw.2.1 _ ha) (lt_irrefl _)
  · intro k hk
    rw [hkeys] at hk
    rcases List.mem_append.mp hk with hold | hnew
    · exact Nat.lt_succ_of_lt (hw.2.1 k hold)
    · rw [List.mem_singleton] at hnew
      subst hnew
      exact Nat.lt_succ_self _
  · intro e he
    rcases List.mem_append.mp he with hold | hnew
    · exact hw.2.2.1 e hold
    · rw [List.mem_singleton] at hnew
      subst hnew
      exact hcid
  · intro x y
    rw [occ_eq]
    show occL (w.cells ++ [(w.next_cell_id, c)]) x y ≤ _
    rw [occL_append_single]
    by_cases hc : c.x = x ∧ c.y = y
    · rw [if_pos hc]
      rcases hc with ⟨hx, hy⟩
      have := hocc
      rw [hx, hy, occ_eq] at this
      omega
    · rw [if_neg hc]
      have := hw.2.2.2 x y
      rw [occ_eq] at this
      omega

/-- The reproduction loop preserves the invariants. -/
theorem WFgood_reproduceLoop (w : World) (cid : Nat) (cell : Cell) (org : Organism)
    (mo : Nat → MutOracle)
    (hw : WFgood w) (hl : w.lookupCell cid = some cell) (hid : cell.id = cid) :
    ∀ (dirs : List Pos) (k : Nat), WFgood (w.reproduceLoop cid cell org mo dirs k).1 := by
  intro dirs
  induction dirs with
  | nil => intro k; exact hw
  | cons d rest ih =>
      intro k
      simp only [World.reproduceLoop]
      by_cases h1 : 0 ≤ cell.x + d.1 ∧ cell.x + d.1 < w.width ∧ 0 ≤ cell.y + d.2 ∧
          cell.y + d.2 < w.height ∧ ((cell.x + d.1, cell.y + d.2) : Pos) ∉ w.walls
      · rw [if_pos h1]
        by_cases h2 : (w.getCellsAt (cell.x + d.1) (cell.y + d.2)).length <
            Config.MAX_CELLS_PER_LOCATION
        · rw [if_pos h2]
          rcases ht : truthy (parse (mutate org.genome (mo k))) with _ | ts
          · exact ih (k + 1)
          · have hW1 := WFgood_appendCell w
              { id := w.next_cell_id, x := cell.x + d.1, y := cell.y + d.2,
                organism_id := w.next_organism_id,
                energy := Config.STARTING_ENERGY - ((mutate org.genome (mo k)).length : Int),
                age := 0 }
              (w.organisms ++ [(w.next_organism_id,
                { id := w.next_organism_id, genome := mutate org.genome (mo k), traits := ts,
                  cell_ids := [w.next_cell_id], birth_tick := w.tick_counter })])
              (w.next_organism_id + 1) hw rfl h2
            have hlW1 : (({ w with
                organisms := w.organisms ++ [(w.next_organism_id,
                  { id := w.next_organism_id, genome := mutate org.genome (mo k), traits := ts,
                    cell_ids := [w.next_cell_id], birth_tick := w.tick_counter })],
                cells := w.cells ++ [(w.next_cell_id,
                  { id := w.next_cell_id, x := cell.x + d.1, y := cell.y + d.2,
                    organism_id := w.next_organism_id,
                    energy := Config.STARTING_ENERGY - ((mutate org.genome (mo k)).length : Int),
                    age := 0 })],
                next_organism_id := w.next_organism_id + 1,
                next_cell_id := w.next_cell_id + 1 } : World)).lookupCell cid = some cell :=
              lookupCell_append w _ cid cell hl
            exact (WFgood_writeCell _ cid
              { cell with energy := cell.energy - Config.REPRODUCTION_COST } cell
              hW1 hlW1 hid (Or.inl ⟨rfl, rfl⟩)).1
        · rw [if_neg h2]
          exact ih k
      · rw [if_neg h1]
        exact ih k

/-- The spawn attempt loop preserves the invariants. -/
theorem WFgood_spawnLoop (o : SpawnOracle) (genome : String) (traits : List String)
    (x y : Int) (spread : Nat) :
    ∀ (fuel i : Nat) (w w' : World) (org : Organism), WFgood w →
      w.spawnLoop o genome traits x y spread i fuel = some (w', org) → WFgood w' := by
  intro fuel
  induction fuel with
  | zero =>
      intro i w w' org hw h
      exact absurd h (by simp [World.spawnLoop])
  | succ n ih =>
      intro i w w' org hw h
      simp only [World.spawnLoop] at h
      by_cases hc : ((max 0 (min (w.width - 1) (x + randint_sym spread (o.dxRaw i))),
            max 0 (min (w.height - 1) (y + randint_sym spread (o.dyRaw i)))) : Pos) ∉ w.walls ∧
          (w.getCellsAt (max 0 (min (w.width - 1) (x + randint_sym spread (o.dxRaw i))))
            (max 0 (min (w.height - 1) (y + randint_sym spread (o.dyRaw i))))).length <
            Config.MAX_CELLS_PER_LOCATION
      · rw [if_pos hc] at h
        injection h with h
        have hww : w' = { w with
            organisms := w.organisms ++ [(w.next_organism_id,
              { id := w.next_organism_id, genome := genome, traits := traits,
                cell_ids := [w.next_cell_id], birth_tick := w.tick_counter })],
            cells := w.cells ++ [(w.next_cell_id,
              { id := w.next_cell_id,
                x := max 0 (min (w.width - 1) (x + randint_sym spread (o.dxRaw i))),
                y := max 0 (min (w.height - 1) (y + randint_sym spread (o.dyRaw i))),
                organism_id := w.next_organism_id,
                energy := Config.STARTING_ENERGY - (genome.length : Int), age := 0 })],
            next_organism_id := w.next_organism_id + 1,
            next_cell_id := w.next_cell_id + 1 } := (congrArg Prod.fst h).symm
        rw [hww]
        exact WFgood_appendCell w _ _ _ hw rfl hc.2
      · rw [if_neg hc] at h
        exact ih (i + 1) w w' org hw h

theorem WFgood_processCell (st : TickState) (o : CellOracle) (sd : Bool) (cid : Nat)
    (hw : WFgood st.w) : WFgood (processCell st o sd cid).w := by
  simp only [processCell]
  split
  · exact hw
  · split
    · exact hw
    · rename_i _ cell0 hlook _ org horg
      have hid : cell0.id = cid := hw.2.2.1 (cid, cell0)
        (List.mem_of_find?_eq_some (lookup_some_find? st.w cid cell0 hlook))
      have hb := WFgood_behaveCell st.w o sd cid cell0 org st.dead hw hlook hid
      by_cases hd : (behaveCell st.w o sd cid cell0 org st.dead).2.1.energy ≤ 0
      · rw [if_pos hd]
        exact hb.1
      · rw [if_neg hd]
        by_cases hrep : (behaveCell st.w o sd cid cell0 org st.dead).2.1.energy >
            Config.REPRODUCTION_THRESHOLD
        · rw [if_pos hrep]
          exact WFgood_reproduceLoop _ cid _ org o.muts hb.1 hb.2.1 hb.2.2 AXIS_DIRECTIONS 0
        · rw [if_neg hrep]
          exact hb.1

theorem WFgood_foldProcess (o : TickOracle) (sd : Bool) :
    ∀ (ids : List (Nat × Nat)) (st : TickState), WFgood st.w →
      WFgood ((ids.foldl (fun s p => processCell s (o.cellO p.1) sd p.2) st)).w := by
  intro ids
  induction ids with
  | nil => intro st h; exact h
  | cons p rest ih =>
      intro st h
      exact ih _ (WFgood_processCell st (o.cellO p.1) sd p.2 h)

theorem WFgood_tickLoop (w : World) (o : TickOracle) (sd : Bool) (hw : WFgood w) :
    WFgood (tickLoop w o sd).w :=
  WFgood_foldProcess o sd _ ⟨w, [], []⟩ hw

theorem WFgood_foldKill :
    ∀ (l : List Nat) (w : World), WFgood w →
      WFgood (l.foldl (fun wa c => wa.kill_cell c) w) := by
  intro l
  induction l with
  | nil => intro w h; exact h
  | cons c rest ih =>
      intro w h
      exact ih _ (WFgood_kill w c h).1

/-- Only the cell store and the allocation counter matter for the
invariants. -/
theorem WFgood_ext (w w' : World) (hw : WFgood w) (hc : w'.cells = w.cells)
    (hn : w'.next_cell_id = w.next_cell_id) : WFgood w' := by
  unfold WFgood cellKeys occ World.getCellsAt
  rw [hc, hn]
  exact hw

theorem WFgood_update (w : World) (o : TickOracle) (hw : WFgood w) :
    WFgood (w.update o) := by
  simp only [World.update, runTick]
  exact WFgood_ext _ _
    (WFgood_foldKill
      (tickLoop { w with tick_counter := w.tick_counter + 1 } o
        (decide ((w.tick_counter + 1) % Config.ENERGY_DRAIN_INTERVAL = 0))).dead
      (tickLoop { w with tick_counter := w.tick_counter + 1 } o
        (decide ((w.tick_counter + 1) % Config.ENERGY_DRAIN_INTERVAL = 0))).w
      (WFgood_tickLoop { w with tick_counter := w.tick_counter + 1 } o
        (decide ((w.tick_counter + 1) % Config.ENERGY_DRAIN_INTERVAL = 0)) hw))
    rfl rfl

/-- C8: after a tick — and after every spawn, move and reproduction
operation — every position holds at most `MAX_CELLS_PER_LOCATION` live
cells, given the (decidable) reachable-state invariants of the store:
unique ids below the allocation counter, consistently stored, and the
stacking limit holding beforehand. -/
theorem c8_occupancy_invariant :
    ∀ w : World,
      (cellKeys w).Nodup →
      (∀ k ∈ cellKeys w, k < w.next_cell_id) →
      (∀ e ∈ w.cells, e.2.id = e.1) →
      (∀ e ∈ w.cells, occ w e.2.x e.2.y ≤ Config.MAX_CELLS_PER_LOCATION) →
      ((∀ (o : TickOracle) (x y : Int),
          occ (w.update o) x y ≤ Config.MAX_CELLS_PER_LOCATION) ∧
       (∀ (so : SpawnOracle) (genome : String) (gx gy : Int) (spread : Nat)
          (w' : World) (org : Organism),
          w.spawn_organism so genome gx gy spread = some (w', org) →
          ∀ x y : Int, occ w' x y ≤ Config.MAX_CELLS_PER_LOCATION) ∧
       (∀ (cid : Nat) (cell : Cell) (picks : Nat → Nat), w.lookupCell cid = some cell →
          ∀ x y : Int, occ (w.move_cell cid cell picks).1 x y ≤ Config.MAX_CELLS_PER_LOCATION) ∧
       (∀ (cid : Nat) (cell : Cell) (org : Organism) (mo : Nat → MutOracle),
          w.lookupCell cid = some cell →
          ∀ x y : Int,
            occ (w.try_reproduce cid cell org mo).1 x y ≤ Config.MAX_CELLS_PER_LOCATION)) := by
  intro w hnd hb hcons hoccc
  have hw : WFgood w := ⟨hnd, hb, hcons, occAll_of_cells w hoccc⟩
  refine ⟨?_, ?_, ?_, ?_⟩
  · intro o x y
    exact (WFgood_update w o hw).2.2.2 x y
  · intro so genome gx gy spread w' org h
    unfold World.spawn_organism at h
    rcases ht : truthy (parse genome) with _ | ts
    · rw [ht] at h
      exact absurd h (by simp)
    · rw [ht] at h
      exact (WFgood_spawnLoop so genome ts gx gy spread 100 0 w w' org hw h).2.2.2
  · intro cid cell picks hl x y
    have hid : cell.id = cid := hcons (cid, cell)
      (List.mem_of_find?_eq_some (lookup_some_find? w cid cell hl))
    exact ((WFgood_moveLoop w cid cell hw hl hid (shuffled_directions picks)).1).2.2.2 x y
  · intro cid cell org mo hl x y
    have hid : cell.id = cid := hcons (cid, cell)
      (List.mem_of_find?_eq_some (lookup_some_find? w cid cell hl))
    exact (WFgood_reproduceLoop w cid cell org mo hw hl hid AXIS_DIRECTIONS 0).2.2.2 x y

/-- Witness for C8 on a concrete one-cell world. -/
theorem c8_occupancy_invariant_witness :
    (∀ (o : TickOracle) (x y : Int),
        occ (World.update
          { width := 10, height := 10,
            cells := [(0, { id := 0, x := 3, y := 3, organism_id := 0, energy := 50, age := 0 })],
            organisms := [(0, { id := 0, genome := "[Cell]", traits := [("Cell" : String)],
                                cell_ids := [0], birth_tick := 0 })],
            walls := [],
            food_system := { width := 10, height := 10, food_grid := [], food_energy := [] },
            next_cell_id := 1, next_organism_id := 1, tick_counter := 0 } o) x y ≤
          Config.MAX_CELLS_PER_LOCATION) ∧
    (∀ (so : SpawnOracle) (genome : String) (gx gy : Int) (spread : Nat)
        (w' : World) (org : Organism),
        World.spawn_organism
          { width := 10, height := 10,
            cells := [(0, { id := 0, x := 3, y := 3, organism_id := 0, energy := 50, age := 0 })],
            organisms := [(0, { id := 0, genome := "[Cell]", traits := [("Cell" : String)],
                                cell_ids := [0], birth_tick := 0 })],
            walls := [],
            food_system := { width := 10, height := 10, food_grid := [], food_energy := [] },
            next_cell_id := 1, next_organism_id := 1, tick_counter := 0 } so genome gx gy spread =
          some (w', org) →
        ∀ x y : Int, occ w' x y ≤ Config.MAX_CELLS_PER_LOCATION) ∧
    (∀ (cid : Nat) (cell : Cell) (picks : Nat → Nat),
        World.lookupCell
          { width := 10, height := 10,
            cells := [(0, { id := 0, x := 3, y := 3, organism_id := 0, energy := 50, age := 0 })],
            organisms := [(0, { id := 0, genome := "[Cell]", traits := [("Cell" : String)],
                                cell_ids := [0], birth_tick := 0 })],
            walls := [],
            food_system := { width := 10, height := 10, food_grid := [], food_energy := [] },
            next_cell_id := 1, next_organism_id := 1, tick_counter := 0 } cid = some cell →
        ∀ x y : Int,
          occ ((World.move_cell
            { width := 10, height := 10,
              cells := [(0, { id := 0, x := 3, y := 3, organism_id := 0, energy := 50, age := 0 })],
              organisms := [(0, { id := 0, genome := "[Cell]", traits := [("Cell" : String)],
                                  cell_ids := [0], birth_tick := 0 })],
              walls := [],
              food_system := { width := 10, height := 10, food_grid := [], food_energy := [] },
              next_cell_id := 1, next_organism_id := 1, tick_counter := 0 } cid cell picks)).1 x y ≤
            Config.MAX_CELLS_PER_LOCATION) ∧
    (∀ (cid : Nat) (cell : Cell) (org : Organism) (mo : Nat → MutOracle),
        World.lookupCell
          { width := 10, height := 10,
            cells := [(0, { id := 0, x := 3, y := 3, organism_id := 0, energy := 50, age := 0 })],
            organisms := [(0, { id := 0, genome := "[Cell]", traits := [("Cell" : String)],
                                cell_ids := [0], birth_tick := 0 })],
            walls := [],
            food_system := { width := 10, height := 10, food_grid := [], food_energy := [] },
            next_cell_id := 1, next_organism_id := 1, tick_counter := 0 } cid = some cell →
        ∀ x y : Int,
          occ ((World.try_reproduce
            { width := 10, height := 10,
              cells := [(0, { id := 0, x := 3, y := 3, organism_id := 0, energy := 50, age := 0 })],
              organisms := [(0, { id := 0, genome := "[Cell]", traits := [("Cell" : String)],
                                  cell_ids := [0], birth_tick := 0 })],
              walls := [],
              food_system := { width := 10, height := 10, food_grid := [], food_energy := [] },
              next_cell_id := 1, next_organism_id := 1, tick_counter := 0 } cid cell org mo)).1 x y ≤
            Config.MAX_CELLS_PER_LOCATION) :=
  c8_occupancy_invariant
    { width := 10, height := 10,
      cells := [(0, { id := 0, x := 3, y := 3, organism_id := 0, energy := 50, age := 0 })],
      organisms := [(0, { id := 0, genome := "[Cell]", traits := [("Cell" : String)],
                          cell_ids := [0], birth_tick := 0 })],
      walls := [],
      food_system := { width := 10, height := 10, food_grid := [], food_energy := [] },
      next_cell_id := 1, next_organism_id := 1, tick_counter := 0 }
    (by decide) (by decide) (by decide) (by decide)

/-! ### Snapshot round trip (claim C1) -/

/-- The observable organism data serialized by World.to_dict: genome plus
the positions of the organism's still-live cells. -/
def orgObs (w : World) : List OrgData :=
  w.organisms.map (fun e =>
    { genome := e.2.genome,
      cells := e.2.cell_ids.filterMap (fun cid =>
        (w.lookupCell cid).map (fun c => (c.x, c.y))) })

/-- The position of an organism's unique cell (single-celled organisms are
the only kind the engine creates); a sentinel off-grid value otherwise. -/
def primaryPos (w : World) (org : Organism) : Pos :=
  match org.cell_ids with
  | [cid] =>
      match w.lookupCell cid with
      | some c => (c.x, c.y)
      | none => ((-1 : Int), (-1 : Int))
  | _ => ((-1 : Int), (-1 : Int))

/-- Reachable-state facts about one organism, as a decidable check: exactly
one cell, live, in bounds, not on a wall, and a parseable genome. -/
def orgOKb (w : World) (org : Organism) : Bool :=
  match org.cell_ids with
  | [cid] =>
      match w.lookupCell cid with
      | some c =>
          decide (0 ≤ c.x) && decide (c.x < w.width) && decide (0 ≤ c.y) &&
          decide (c.y < w.height) && !(decide (((c.x, c.y) : Pos) ∈ w.walls)) &&
          (truthy (parse org.genome)).isSome
      | none => false
  | _ => false

/-- A spawn with spread 0 at an in-bounds, wall-free, empty position
succeeds on the first attempt with the exact fresh records. -/
theorem spawn_zero_eq (w : World) (o : SpawnOracle) (genome : String) (ts : List String)
    (x y : Int)
    (hts : truthy (parse genome) = some ts)
    (hx0 : 0 ≤ x) (hxw : x < w.width) (hy0 : 0 ≤ y) (hyh : y < w.height)
    (hwall : ((x, y) : Pos) ∉ w.walls) (hempty : w.getCellsAt x y = []) :
    w.spawn_organism o genome x y 0 = some
      ({ w with
          organisms := w.organisms ++ [(w.next_organism_id,
            { id := w.next_organism_id, genome := genome, traits := ts,
              cell_ids := [w.next_cell_id], birth_tick := w.tick_counter })],
          cells := w.cells ++ [(w.next_cell_id,
            { id := w.next_cell_id, x := x, y := y, organism_id := w.next_organism_id,
              energy := Config.STARTING_ENERGY - (genome.length : Int), age := 0 })],
          next_organism_id := w.next_organism_id + 1,
          next_cell_id := w.next_cell_id + 1 },
        { id := w.next_organism_id, genome := genome, traits := ts,
          cell_ids := [w.next_cell_id], birth_tick := w.tick_counter }) := by
  unfold World.spawn_organism
  rw [hts]
  show World.spawnLoop w o genome ts x y 0 0 (99 + 1) = _
  unfold World.spawnLoop
  have hx : max 0 (min (w.width - 1) (x + randint_sym 0 (o.dxRaw 0))) = x := by
    rw [randint_sym_zero]; omega
  have hy : max 0 (min (w.height - 1) (y + randint_sym 0 (o.dyRaw 0))) = y := by
    rw [randint_sym_zero]; omega
  simp only [hx, hy]
  rw [if_pos ⟨hwall, by simp [hempty, Config.MAX_CELLS_PER_LOCATION]⟩]

/-- If a predicate finds nothing in the first list, searching the
concatenation searches the second. -/
theorem find?_append_of_none {α : Type} (p : α → Bool) :
    ∀ (l1 l2 : List α), l1.find? p = none → (l1 ++ l2).find? p = l2.find? p := by
  intro l1
  induction l1 with
  | nil => intro l2 _; rfl
  | cons a t ih =>
      intro l2 h
      by_cases hp : p a
      · rw [List.find?_cons_of_pos _ hp] at h
        cases h
      · rw [List.find?_cons_of_neg _ hp] at h
        rw [List.cons_append, List.find?_cons_of_neg _ hp]
        exact ih l2 h

/-- Spawning a list of food triples with fresh, in-bounds, pairwise
distinct positions appends them to both maps in order. -/
theorem food_fold :
    ∀ (l : List (Int × Int × Int)) (s : FoodSystem),
      (∀ t ∈ l, 0 ≤ t.1 ∧ t.1 < s.width ∧ 0 ≤ t.2.1 ∧ t.2.1 < s.height) →
      (∀ t ∈ l, ((t.1, t.2.1) : Pos) ∉ s.food_grid) →
      (∀ t ∈ l, s.food_energy.any (fun e => e.1 = ((t.1, t.2.1) : Pos)) = false) →
      (l.map (fun t => ((t.1, t.2.1) : Pos))).Nodup →
      l.foldl (fun s t => s.spawn_food t.1 t.2.1 t.2.2) s =
        { s with
            food_grid := s.food_grid ++ l.map (fun t => ((t.1, t.2.1) : Pos)),
            food_energy := s.food_energy ++
              l.map (fun t => (((t.1, t.2.1) : Pos), t.2.2)) } := by
  intro l
  induction l with
  | nil =>
      intro s _ _ _ _
      show s = _
      rw [List.map_nil, List.map_nil, List.append_nil, List.append_nil]
  | cons t rest ih =>
      intro s hb hg he hnd
      have hbt := hb t (List.mem_cons_self t rest)
      have hgt := hg t (List.mem_cons_self t rest)
      have het := he t (List.mem_cons_self t rest)
      rw [List.map_cons] at hnd
      have hhead : ((t.1, t.2.1) : Pos) ∉ rest.map (fun t => ((t.1, t.2.1) : Pos)) :=
        (List.nodup_cons.mp hnd).1
      have hrest : (rest.map (fun t => ((t.1, t.2.1) : Pos))).Nodup :=
        (List.nodup_cons.mp hnd).2
      have hs' : s.spawn_food t.1 t.2.1 t.2.2 =
          { s with
              food_grid := s.food_grid ++ [((t.1, t.2.1) : Pos)],
              food_energy := s.food_energy ++ [(((t.1, t.2.1) : Pos), t.2.2)] } := by
        unfold FoodSystem.spawn_food
        rw [if_pos hbt, if_neg hgt]
        unfold updateEnergy
        simp only [het, Bool.false_eq_true, if_false]
      rw [List.foldl_cons, hs']
      rw [ih { s with
              food_grid := s.food_grid ++ [((t.1, t.2.1) : Pos)],
              food_energy := s.food_energy ++ [(((t.1, t.2.1) : Pos), t.2.2)] }
          (fun t' ht' => hb t' (List.mem_cons_of_mem t ht'))
          ?_ ?_ hrest]
      · simp [List.append_assoc]
      · intro t' ht'
        rw [List.mem_append]
        rintro (h | h)
        · exact hg t' (List.mem_cons_of_mem t ht') h
        · rw [List.mem_singleton] at h
          exact hhead (h ▸ List.mem_map_of_mem (fun t => ((t.1, t.2.1) : Pos)) ht')
      · intro t' ht'
        rw [List.any_append]
        have h1 := he t' (List.mem_cons_of_mem t ht')
        rw [h1]
        simp only [Bool.false_or, List.any_cons, List.any_nil, Bool.or_false]
        rw [decide_eq_false]
        intro hq
        exact hhead (hq ▸ List.mem_map_of_mem (fun t => ((t.1, t.2.1) : Pos)) ht')

/-- Searching an associated-value list built over keys finds the entry of
any listed key. -/
theorem find?_map_keys {β : Type} (g : Pos → β) :
    ∀ (gr : List Pos) (p : Pos), p ∈ gr →
      (gr.map (fun q => (q, g q))).find? (fun e => e.1 = p) = some (p, g p) := by
  intro gr
  induction gr with
  | nil => intro p hp; cases hp
  | cons q rest ih =>
      intro p hp
      by_cases hq : q = p
      · subst hq
        rw [List.map_cons, List.find?_cons_of_pos _ (by simp)]
      · rw [List.map_cons, List.find?_cons_of_neg _ (by simp [hq])]
        rcases List.mem_cons.mp hp with h | h
        · exact absurd h.symm hq
        · exact ih p h

/-- Rebuilding the energy map from the serialized triples preserves every
lookup, given the grid/energy synchronisation invariants. -/
theorem lookupEnergy_roundtrip (fs : FoodSystem)
    (hs1 : ∀ p ∈ fs.food_grid, (lookupEnergy fs.food_energy p).isSome = true)
    (hs2 : ∀ q ∈ fs.food_energy, q.1 ∈ fs.food_grid) :
    ∀ p : Pos,
      lookupEnergy (fs.food_grid.map (fun q =>
        ((q : Pos), (lookupEnergy fs.food_energy q).getD Config.FOOD_ENERGY))) p =
      lookupEnergy fs.food_energy p := by
  intro p
  by_cases hp : p ∈ fs.food_grid
  · have hL : lookupEnergy (fs.food_grid.map (fun q =>
        ((q : Pos), (lookupEnergy fs.food_energy q).getD Config.FOOD_ENERGY))) p =
        some ((lookupEnergy fs.food_energy p).getD Config.FOOD_ENERGY) := by
      have hf := find?_map_keys (fun q => (lookupEnergy fs.food_energy q).getD Config.FOOD_ENERGY)
        fs.food_grid p hp
      unfold lookupEnergy
      unfold lookupEnergy at hf
      rw [hf]
      rfl
    rw [hL]
    rcases ho : lookupEnergy fs.food_energy p with _ | v
    · have := hs1 p hp
      rw [ho] at this
      cases this
    · rfl
  · have hL : lookupEnergy (fs.food_grid.map (fun q =>
        ((q : Pos), (lookupEnergy fs.food_energy q).getD Config.FOOD_ENERGY))) p = none := by
      unfold lookupEnergy
      rw [List.find?_eq_none.mpr ?_]
      · rfl
      · intro a ha
        rcases List.mem_map.mp ha with ⟨q, hq, rfl⟩
        simp only [decide_eq_true_eq]
        intro hqp
        exact hp (hqp ▸ hq)
    have hR : lookupEnergy fs.food_energy p = none := by
      unfold lookupEnergy
      rw [List.find?_eq_none.mpr ?_]
      · rfl
      · intro q hq
        simp only [decide_eq_true_eq]
        intro hqp
        exact hp (hqp ▸ hs2 q hq)
    rw [hL, hR]

/-- Membership in the wall-accumulating fold of World.from_dict. -/
theorem mem_foldl_wallInsert :
    ∀ (l ws : List Pos) (q : Pos),
      q ∈ l.foldl (fun ws p => if p ∈ ws then ws else ws ++ [p]) ws ↔ q ∈ ws ∨ q ∈ l := by
  intro l
  induction l with
  | nil => intro ws q; simp
  | cons p rest ih =>
      intro ws q
      rw [List.foldl_cons, ih]
      by_cases hp : p ∈ ws
      · rw [if_pos hp]
        constructor
        · rintro (h | h)
          · exact Or.inl h
          · exact Or.inr (List.mem_cons_of_mem p h)
        · rintro (h | h)
          · exact Or.inl h
          · rcases List.mem_cons.mp h with rfl | h2
            · exact Or.inl hp
            · exact Or.inr h2
      · rw [if_neg hp]
        constructor
        · rintro (h | h)
          · rcases List.mem_append.mp h with h1 | h1
            · exact Or.inl h1
            · exact Or.inr (List.mem_cons.mpr (Or.inl (List.mem_singleton.mp h1)))
          · exact Or.inr (List.mem_cons_of_mem p h)
        · rintro (h | h)
          · exact Or.inl (List.mem_append.mpr (Or.inl h))
          · rcases List.mem_cons.mp h with rfl | h2
            · exact Or.inl (List.mem_append.mpr (Or.inr (List.mem_singleton.mpr rfl)))
            · exact Or.inr h2

/-- Reduction of World.from_dict on a snapshot with every field present,
valid dimensions and in-bounds walls. -/
theorem from_dict_some (data : SnapshotData) (width height : Int) (orgsL : List OrgData)
    (fd : FoodData) (wallsL : List Pos)
    (hW : data.width = some width) (hH : data.height = some height)
    (hO : data.organisms = some orgsL) (hF : data.food = some fd)
    (hWL : data.walls = some wallsL)
    (h250 : 250 ≤ width) (h701 : 701 ≤ height)
    (hall : ∀ p ∈ wallsL, 0 ≤ p.1 ∧ p.1 < width ∧ 0 ≤ p.2 ∧ p.2 < height) :
    World.from_dict data = some (orgsL.foldl fromDictOrgStep
      { width := width, height := height, cells := [], organisms := [],
        walls := wallsL.foldl (fun ws p => if p ∈ ws then ws else ws ++ [p]) DEFAULT_WALLS,
        food_system := FoodSystem.from_dict fd width height,
        next_cell_id := 0, next_organism_id := 0, tick_counter := 0 }) := by
  have hinit : World.init width height
      { width := width, height := height, food_grid := [], food_energy := [] } =
      some { width := width, height := height, cells := [], organisms := [],
             walls := DEFAULT_WALLS,
             food_system := { width := width, height := height, food_grid := [],
                              food_energy := [] },
             next_cell_id := 0, next_organism_id := 0, tick_counter := 0 } := by
    unfold World.init
    rw [if_pos ⟨h250, h701⟩]
  have hcond : (wallsL.all
      (fun p => decide (0 ≤ p.1 ∧ p.1 < width ∧ 0 ≤ p.2 ∧ p.2 < height))) = true :=
    List.all_eq_true.mpr (fun p hp => decide_eq_true (hall p hp))
  unfold World.from_dict
  rw [hW, hH]
  simp only [hinit, hWL, hF, hO, Option.getD_some]
  rw [if_pos hcond]

/-- Looking up an existing cell id is unaffected by appending entries,
whatever else changes in the world record. -/
theorem lookupCell_of_cells_append (w w' : World) (l2 : List (Nat × Cell)) (cid : Nat)
    (c : Cell) (hcells : w'.cells = w.cells ++ l2) (h : w.lookupCell cid = some c) :
    w'.lookupCell cid = some c := by
  unfold World.lookupCell at h ⊢
  rw [hcells]
  rcases hf : w.cells.find? (fun e => e.1 = cid) with _ | en
  · rw [hf] at h
    simp at h
  · rw [hf] at h
    rw [find?_append_of_some _ w.cells l2 en hf]
    exact h

/-- Reloading a list of single-celled organism records at fresh, in-bounds,
wall-free, pairwise distinct positions spawns each in order, leaving walls
and food untouched and extending the observable organism list exactly. -/
theorem orgs_fold :
    ∀ (ol : List OrgData) (wa : World),
      (∀ od ∈ ol, ∃ cx cy ts, od.cells = [((cx, cy) : Int × Int)] ∧
        truthy (parse od.genome) = some ts ∧
        0 ≤ cx ∧ cx < wa.width ∧ 0 ≤ cy ∧ cy < wa.height ∧
        ((cx, cy) : Pos) ∉ wa.walls ∧ wa.getCellsAt cx cy = []) →
      (ol.map (fun od => od.cells.headD ((-1 : Int), (-1 : Int)))).Nodup →
      (∀ e ∈ wa.organisms, ∀ cid ∈ e.2.cell_ids, (wa.lookupCell cid).isSome = true) →
      (∀ k ∈ cellKeys wa, k < wa.next_cell_id) →
      (ol.foldl fromDictOrgStep wa).walls = wa.walls ∧
      (ol.foldl fromDictOrgStep wa).food_system = wa.food_system ∧
      orgObs (ol.foldl fromDictOrgStep wa) = orgObs wa ++ ol := by
  intro ol
  induction ol with
  | nil =>
      intro wa _ _ _ _
      refine ⟨rfl, rfl, ?_⟩
      rw [List.append_nil]
      rfl
  | cons od rest ih =>
      intro wa H Hnd Hlive Hb
      obtain ⟨cx, cy, ts, hcells, hts, hx0, hxw, hy0, hyh, hwl, hemp⟩ :=
        H od (List.mem_cons_self od rest)
      rw [List.map_cons, hcells] at Hnd
      have hhead : ((cx, cy) : Pos) ∉
          rest.map (fun od => od.cells.headD ((-1 : Int), (-1 : Int))) :=
        (List.nodup_cons.mp Hnd).1
      have hndrest := (List.nodup_cons.mp Hnd).2
      have hstep : fromDictOrgStep wa od =
          { wa with
              organisms := wa.organisms ++ [(wa.next_organism_id,
                { id := wa.next_organism_id, genome := od.genome, traits := ts,
                  cell_ids := [wa.next_cell_id], birth_tick := wa.tick_counter })],
              cells := wa.cells ++ [(wa.next_cell_id,
                { id := wa.next_cell_id, x := cx, y := cy,
                  organism_id := wa.next_organism_id,
                  energy := Config.STARTING_ENERGY - (od.genome.length : Int), age := 0 })],
              next_organism_id := wa.next_organism_id + 1,
              next_cell_id := wa.next_cell_id + 1 } := by
        unfold fromDictOrgStep
        rw [hcells]
        show (match wa.spawn_organism { dxRaw := fun _ => 0, dyRaw := fun _ => 0 }
            od.genome cx cy 0 with
          | some r => r.1
          | none => wa) = _
        rw [spawn_zero_eq wa { dxRaw := fun _ => 0, dyRaw := fun _ => 0 } od.genome ts cx cy
          hts hx0 hxw hy0 hyh hwl hemp]
      have hlooknew : ({ wa with
          organisms := wa.organisms ++ [(wa.next_organism_id,
            { id := wa.next_organism_id, genome := od.genome, traits := ts,
              cell_ids := [wa.next_cell_id], birth_tick := wa.tick_counter })],
          cells := wa.cells ++ [(wa.next_cell_id,
            { id := wa.next_cell_id, x := cx, y := cy,
              organism_id := wa.next_organism_id,
              energy := Config.STARTING_ENERGY - (od.genome.length : Int), age := 0 })],
          next_organism_id := wa.next_organism_id + 1,
          next_cell_id := wa.next_cell_id + 1 } : World).lookupCell wa.next_cell_id =
          some { id := wa.next_cell_id, x := cx, y := cy,
                 organism_id := wa.next_organism_id,
                 energy := Config.STARTING_ENERGY - (od.genome.length : Int), age := 0 } := by
        show (((wa.cells ++ _).find? (fun e => e.1 = wa.next_cell_id)).map (fun e => e.2)) = _
        rw [find?_append_of_none _ wa.cells _ ?_]
        · rw [List.find?_cons_of_pos _ (by simp)]
          rfl
        · rw [List.find?_eq_none]
          intro e he
          simp only [decide_eq_true_eq]
          intro hk
          exact absurd (Hb e.1 (List.mem_map_of_mem (fun e => e.1) he)) (by omega)
      rw [List.foldl_cons, hstep]
      have ihr := ih
        { wa with
            organisms := wa.organisms ++ [(wa.next_organism_id,
              { id := wa.next_organism_id, genome := od.genome, traits := ts,
                cell_ids := [wa.next_cell_id], birth_tick := wa.tick_counter })],
            cells := wa.cells ++ [(wa.next_cell_id,
              { id := wa.next_cell_id, x := cx, y := cy,
                organism_id := wa.next_organism_id,
                energy := Config.STARTING_ENERGY - (od.genome.length : Int), age := 0 })],
            next_organism_id := wa.next_organism_id + 1,
            next_cell_id := wa.next_cell_id + 1 }
        ?_ hndrest ?_ ?_
      · refine ⟨ihr.1, ihr.2.1, ?_⟩
        rw [ihr.2.2]
        have hobs : orgObs
            { wa with
                organisms := wa.organisms ++ [(wa.next_organism_id,
                  { id := wa.next_organism_id, genome := od.genome, traits := ts,
                    cell_ids := [wa.next_cell_id], birth_tick := wa.tick_counter })],
                cells := wa.cells ++ [(wa.next_cell_id,
                  { id := wa.next_cell_id, x := cx, y := cy,
                    organism_id := wa.next_organism_id,
                    energy := Config.STARTING_ENERGY - (od.genome.length : Int), age := 0 })],
                next_organism_id := wa.next_organism_id + 1,
                next_cell_id := wa.next_cell_id + 1 } = orgObs wa ++ [od] := by
          unfold orgObs
          rw [List.map_append]
          congr 1
          · apply List.map_congr_left
            intro e he
            have hcg : ∀ cid ∈ e.2.cell_ids,
                (({ wa with
                    organisms := wa.organisms ++ [(wa.next_organism_id,
                      { id := wa.next_organism_id, genome := od.genome, traits := ts,
                        cell_ids := [wa.next_cell_id], birth_tick := wa.tick_counter })],
                    cells := wa.cells ++ [(wa.next_cell_id,
                      { id := wa.next_cell_id, x := cx, y := cy,
                        organism_id := wa.next_organism_id,
                        energy := Config.STARTING_ENERGY - (od.genome.length : Int),
                        age := 0 })],
                    next_organism_id := wa.next_organism_id + 1,
                    next_cell_id := wa.next_cell_id + 1 } : World).lookupCell cid).map
                  (fun c => ((c.x, c.y) : Int × Int)) =
                (wa.lookupCell cid).map (fun c => ((c.x, c.y) : Int × Int)) := by
              intro cid hcid
              rcases Option.isSome_iff_exists.mp (Hlive e he cid hcid) with ⟨c, hc⟩
              rw [hc]
              exact congrArg (fun o : Option Cell => o.map (fun c => ((c.x, c.y) : Int × Int)))
                (lookupCell_of_cells_append wa
                  ({ wa with
                    organisms := wa.organisms ++ [(wa.next_organism_id,
                      { id := wa.next_organism_id, genome := od.genome, traits := ts,
                        cell_ids := [wa.next_cell_id], birth_tick := wa.tick_counter })],
                    cells := wa.cells ++ [(wa.next_cell_id,
                      { id := wa.next_cell_id, x := cx, y := cy,
                        organism_id := wa.next_organism_id,
                        energy := Config.STARTING_ENERGY - (od.genome.length : Int),
                        age := 0 })],
                    next_organism_id := wa.next_organism_id + 1,
                    next_cell_id := wa.next_cell_id + 1 } : World)
                  [(wa.next_cell_id,
                    { id := wa.next_cell_id, x := cx, y := cy,
                      organism_id := wa.next_organism_id,
                      energy := Config.STARTING_ENERGY - (od.genome.length : Int),
                      age := 0 })] cid c rfl hc)
            show OrgData.mk _ _ = OrgData.mk _ _
            rw [List.filterMap_congr hcg]
          · rw [List.map_cons, List.map_nil]
            show [OrgData.mk od.genome _] = [od]
            rw [List.filterMap_cons, hlooknew]
            show [OrgData.mk od.genome (((cx, cy) : Int × Int) :: List.filterMap _ [])] = [od]
            rw [List.filterMap_nil, ← hcells]
        rw [hobs, List.append_assoc]
        rfl
      · intro od' hod'
        obtain ⟨cx', cy', ts', hcells', hts', hx0', hxw', hy0', hyh', hwl', hemp'⟩ :=
          H od' (List.mem_cons_of_mem od hod')
        refine ⟨cx', cy', ts', hcells', hts', hx0', hxw', hy0', hyh', hwl', ?_⟩
        have hne : ((cx, cy) : Pos) ≠ ((cx', cy') : Pos) := by
          intro hcc
          apply hhead
          rw [hcc]
          have : od'.cells.headD ((-1 : Int), (-1 : Int)) = ((cx', cy') : Int × Int) := by
            rw [hcells']
            rfl
          rw [← this]
          exact List.mem_map_of_mem (fun od => od.cells.headD ((-1 : Int), (-1 : Int))) hod'
        show ((wa.cells ++ _).filter _).map (fun e => e.2) = []
        rw [List.filter_append]
        have h1 : wa.cells.filter (fun e => decide (e.2.x = cx' ∧ e.2.y = cy')) = [] := by
          have := hemp'
          unfold World.getCellsAt at this
          exact List.map_eq_nil_iff.mp this
        rw [h1]
        rw [List.filter_cons_of_neg ?_]
        · rfl
        · simp only [Bool.and_eq_true, decide_eq_true_eq]
          rintro ⟨hxx, hyy⟩
          exact hne (by rw [hxx, hyy])
      · intro e he cid hcid
        rcases List.mem_append.mp he with hold | hnew
        · rcases Option.isSome_iff_exists.mp (Hlive e hold cid hcid) with ⟨c, hc⟩
          exact Option.isSome_iff_exists.mpr ⟨c, lookupCell_of_cells_append wa
            ({ wa with
                    organisms := wa.organisms ++ [(wa.next_organism_id,
                      { id := wa.next_organism_id, genome := od.genome, traits := ts,
                        cell_ids := [wa.next_cell_id], birth_tick := wa.tick_counter })],
                    cells := wa.cells ++ [(wa.next_cell_id,
                      { id := wa.next_cell_id, x := cx, y := cy,
                        organism_id := wa.next_organism_id,
                        energy := Config.STARTING_ENERGY - (od.genome.length : Int),
                        age := 0 })],
                    next_organism_id := wa.next_organism_id + 1,
                    next_cell_id := wa.next_cell_id + 1 } : World)
            [(wa.next_cell_id,
              { id := wa.next_cell_id, x := cx, y := cy,
                organism_id := wa.next_organism_id,
                energy := Config.STARTING_ENERGY - (od.genome.length : Int),
                age := 0 })] cid c rfl hc⟩
        · rw [List.mem_singleton] at hnew
          subst hnew
          rcases List.mem_singleton.mp hcid with rfl
          rw [hlooknew]
          rfl
      · intro k hk
        have : cellKeys
            { wa with
                organisms := wa.organisms ++ [(wa.next_organism_id,
                  { id := wa.next_organism_id, genome := od.genome, traits := ts,
                    cell_ids := [wa.next_cell_id], birth_tick := wa.tick_counter })],
                cells := wa.cells ++ [(wa.next_cell_id,
                  { id := wa.next_cell_id, x := cx, y := cy,
                    organism_id := wa.next_organism_id,
                    energy := Config.STARTING_ENERGY - (od.genome.length : Int), age := 0 })],
                next_organism_id := wa.next_organism_id + 1,
                next_cell_id := wa.next_cell_id + 1 } =
            cellKeys wa ++ [wa.next_cell_id] := by
          show (wa.cells ++ _).map (fun e => e.1) = _
          rw [List.map_append]
          rfl
        rw [this] at hk
        rcases List.mem_append.mp hk with hold | hnew
        · exact Nat.lt_succ_of_lt (Hb k hold)
        · rw [List.mem_singleton] at hnew
          subst hnew
          exact Nat.lt_succ_self _

/-- Projecting the positions back out of serialized food triples returns
the grid. -/
theorem tripleProj (F : Pos → Int) :
    ∀ gr : List Pos,
      (gr.map (fun p => ((p.1 : Int), (p.2 : Int), F p))).map
        (fun t => ((t.1, t.2.1) : Pos)) = gr := by
  intro gr
  induction gr with
  | nil => rfl
  | cons a t iht =>
      show ((a.1, a.2) : Pos) ::
        (t.map (fun p => ((p.1 : Int), (p.2 : Int), F p))).map
          (fun t => ((t.1, t.2.1) : Pos)) = a :: t
      rw [iht]

/-- Regrouping the serialized food triples as (position, energy) pairs. -/
theorem triplePairs (F : Pos → Int) :
    ∀ gr : List Pos,
      (gr.map (fun p => ((p.1 : Int), (p.2 : Int), F p))).map
        (fun t => (((t.1, t.2.1) : Pos), t.2.2)) =
      gr.map (fun q => ((q : Pos), F q)) := by
  intro gr
  induction gr with
  | nil => rfl
  | cons a t iht =>
      show (((a.1, a.2) : Pos), F a) ::
        (t.map (fun p => ((p.1 : Int), (p.2 : Int), F p))).map
          (fun t => (((t.1, t.2.1) : Pos), t.2.2)) = _
      rw [iht]
      rfl

/-- C1: loading the snapshot produced by saving `w` succeeds and yields a
world with the same wall set, the same food grid with the same energy at
every position, and the same observable organism list (genome plus cell
positions) — proved under the decidable reachable-state invariants:
dimensions at least the default-environment size, default walls present,
walls and food in bounds, food grid/energy maps synchronized and
duplicate-free, and every organism single-celled, live, in bounds, off the
walls, with a parseable genome and a distinct position. -/
theorem c1_roundtrip :
    ∀ w : World,
      250 ≤ w.width → 701 ≤ w.height →
      (∀ p ∈ DEFAULT_WALLS, p ∈ w.walls) →
      (∀ p ∈ w.walls, 0 ≤ p.1 ∧ p.1 < w.width ∧ 0 ≤ p.2 ∧ p.2 < w.height) →
      (∀ p ∈ w.food_system.food_grid,
        0 ≤ p.1 ∧ p.1 < w.width ∧ 0 ≤ p.2 ∧ p.2 < w.height) →
      w.food_system.food_grid.Nodup →
      (∀ p ∈ w.food_system.food_grid,
        (lookupEnergy w.food_system.food_energy p).isSome = true) →
      (∀ q ∈ w.food_system.food_energy, q.1 ∈ w.food_system.food_grid) →
      (∀ e ∈ w.organisms, orgOKb w e.2 = true) →
      (w.organisms.map (fun e => primaryPos w e.2)).Nodup →
      ∃ w' : World,
        World.from_dict w.to_dict = some w' ∧
        (∀ p : Pos, p ∈ w'.walls ↔ p ∈ w.walls) ∧
        w'.food_system.food_grid = w.food_system.food_grid ∧
        (∀ p : Pos, lookupEnergy w'.food_system.food_energy p =
          lookupEnergy w.food_system.food_energy p) ∧
        orgObs w' = orgObs w := by
  intro w h250 h701 hdw hwb hfb hfnd hfs1 hfs2 horg hdist
  have hfoodeq : FoodSystem.from_dict (FoodSystem.to_dict w.food_system) w.width w.height =
      { width := w.width, height := w.height,
        food_grid := (w.food_system.food_grid.map (fun p =>
          ((p.1 : Int), (p.2 : Int),
            (lookupEnergy w.food_system.food_energy p).getD Config.FOOD_ENERGY))).map
          (fun t => ((t.1, t.2.1) : Pos)),
        food_energy := (w.food_system.food_grid.map (fun p =>
          ((p.1 : Int), (p.2 : Int),
            (lookupEnergy w.food_system.food_energy p).getD Config.FOOD_ENERGY))).map
          (fun t => (((t.1, t.2.1) : Pos), t.2.2)) } := by
    exact food_fold
      (w.food_system.food_grid.map (fun p =>
        ((p.1 : Int), (p.2 : Int),
          (lookupEnergy w.food_system.food_energy p).getD Config.FOOD_ENERGY)))
      { width := w.width, height := w.height, food_grid := [], food_energy := [] }
      (fun t ht => by
        rcases List.mem_map.mp ht with ⟨p, hp, rfl⟩
        exact hfb p hp)
      (fun t _ h => List.not_mem_nil _ h)
      (fun t _ => rfl)
      (by
        rw [tripleProj]
        exact hfnd)
  have hmain := from_dict_some w.to_dict w.width w.height (orgObs w)
    (FoodSystem.to_dict w.food_system) w.walls rfl rfl rfl rfl rfl h250 h701 hwb
  have hof := orgs_fold (orgObs w)
    { width := w.width, height := w.height, cells := [], organisms := [],
      walls := w.walls.foldl (fun ws p => if p ∈ ws then ws else ws ++ [p]) DEFAULT_WALLS,
      food_system := FoodSystem.from_dict (FoodSystem.to_dict w.food_system) w.width w.height,
      next_cell_id := 0, next_organism_id := 0, tick_counter := 0 }
    ?_ ?_ (fun e he => absurd he (List.not_mem_nil e)) (fun k hk => absurd hk (List.not_mem_nil k))
  · refine ⟨(orgObs w).foldl fromDictOrgStep
      { width := w.width, height := w.height, cells := [], organisms := [],
        walls := w.walls.foldl (fun ws p => if p ∈ ws then ws else ws ++ [p]) DEFAULT_WALLS,
        food_system := FoodSystem.from_dict (FoodSystem.to_dict w.food_system) w.width w.height,
        next_cell_id := 0, next_organism_id := 0, tick_counter := 0 },
      hmain, ?_, ?_, ?_, ?_⟩
    · intro p
      rw [hof.1]
      have hiff := mem_foldl_wallInsert w.walls DEFAULT_WALLS p
      constructor
      · intro hmem
        rcases hiff.mp hmem with hm | hm
        · exact hdw p hm
        · exact hm
      · intro hmem
        exact hiff.mpr (Or.inr hmem)
    · rw [hof.2.1]
      show (FoodSystem.from_dict (FoodSystem.to_dict w.food_system)
        w.width w.height).food_grid = w.food_system.food_grid
      rw [hfoodeq]
      exact tripleProj
        (fun p => (lookupEnergy w.food_system.food_energy p).getD Config.FOOD_ENERGY)
        w.food_system.food_grid
    · intro p
      rw [hof.2.1]
      show lookupEnergy (FoodSystem.from_dict (FoodSystem.to_dict w.food_system)
        w.width w.height).food_energy p = lookupEnergy w.food_system.food_energy p
      rw [hfoodeq]
      show lookupEnergy ((w.food_system.food_grid.map (fun p =>
          ((p.1 : Int), (p.2 : Int),
            (lookupEnergy w.food_system.food_energy p).getD Config.FOOD_ENERGY))).map
          (fun t => (((t.1, t.2.1) : Pos), t.2.2))) p =
        lookupEnergy w.food_system.food_energy p
      rw [triplePairs]
      exact lookupEnergy_roundtrip w.food_system hfs1 hfs2 p
    · rw [hof.2.2]
      exact List.nil_append _
  · intro od hod
    rcases List.mem_map.mp hod with ⟨e, he, rfl⟩
    have hok := horg e he
    rcases hcz : e.2.cell_ids with _ | ⟨cid, rest2⟩
    · unfold orgOKb at hok
      simp only [hcz] at hok
      exact Bool.noConfusion hok
    · rcases rest2 with _ | ⟨cid2, rest3⟩
      · unfold orgOKb at hok
        simp only [hcz] at hok
        rcases hlc : w.lookupCell cid with _ | c
        · simp only [hlc] at hok
          exact Bool.noConfusion hok
        · simp only [hlc, Bool.and_eq_true, Bool.not_eq_true', decide_eq_true_eq,
            decide_eq_false_iff_not] at hok
          obtain ⟨⟨⟨⟨⟨hx0, hxw⟩, hy0⟩, hyh⟩, hnw⟩, hps⟩ := hok
          rcases Option.isSome_iff_exists.mp hps with ⟨ts, hts⟩
          have hfc : (fun cid => (w.lookupCell cid).map
              (fun c => ((c.x, c.y) : Int × Int))) cid = some (c.x, c.y) := by
            show (w.lookupCell cid).map _ = _
            rw [hlc]
            rfl
          refine ⟨c.x, c.y, ts, ?_, hts, hx0, hxw, hy0, hyh, ?_, rfl⟩
          · show List.filterMap (fun cid => (w.lookupCell cid).map
                (fun c => ((c.x, c.y) : Int × Int))) [cid] = [((c.x, c.y) : Int × Int)]
            simp [hlc]
          · intro hmem
            have hmem2 : ((c.x, c.y) : Pos) ∈
                w.walls.foldl (fun ws p => if p ∈ ws then ws else ws ++ [p]) DEFAULT_WALLS :=
              hmem
            rcases (mem_foldl_wallInsert w.walls DEFAULT_WALLS _).mp hmem2 with hm | hm
            · exact hnw (hdw _ hm)
            · exact hnw hm
      · unfold orgOKb at hok
        simp only [hcz] at hok
        exact Bool.noConfusion hok
  · have hmap2 : (orgObs w).map (fun od => od.cells.headD ((-1 : Int), (-1 : Int))) =
        w.organisms.map (fun e => primaryPos w e.2) := by
      unfold orgObs
      rw [List.map_map]
      apply List.map_congr_left
      intro e he
      have hok := horg e he
      rcases hcz : e.2.cell_ids with _ | ⟨cid, rest2⟩
      · unfold orgOKb at hok
        simp only [hcz] at hok
        exact Bool.noConfusion hok
      · rcases rest2 with _ | ⟨cid2, rest3⟩
        · unfold orgOKb at hok
          simp only [hcz] at hok
          rcases hlc : w.lookupCell cid with _ | c
          · simp only [hlc] at hok
            exact Bool.noConfusion hok
          · have hfc : (fun cid => (w.lookupCell cid).map
                (fun c => ((c.x, c.y) : Int × Int))) cid = some (c.x, c.y) := by
              show (w.lookupCell cid).map _ = _
              rw [hlc]
              rfl
            show (List.filterMap (fun cid => (w.lookupCell cid).map
                (fun c => ((c.x, c.y) : Int × Int))) e.2.cell_ids).headD
                ((-1 : Int), (-1 : Int)) = primaryPos w e.2
            rw [hcz]
            simp [primaryPos, hcz, hlc]
        · unfold orgOKb at hok
          simp only [hcz] at hok
          exact Bool.noConfusion hok
    rw [hmap2]
    exact hdist

set_option maxRecDepth 100000 in
/-- Witness for C1 on a concrete world with default walls, one food item
and one single-celled organism. -/
theorem c1_roundtrip_witness :
    ∃ w' : World,
      World.from_dict (World.to_dict
        { width := 250, height := 701,
          cells := [(0, { id := 0, x := 5, y := 6, organism_id := 0, energy := 194, age := 0 })],
          organisms := [(0, { id := 0, genome := "[Cell]", traits := [("Cell" : String)],
                              cell_ids := [0], birth_tick := 0 })],
          walls := DEFAULT_WALLS,
          food_system := { width := 250, height := 701,
                           food_grid := [(((3 : Int), (4 : Int)) : Pos)],
                           food_energy := [((((3 : Int), (4 : Int)) : Pos), (25 : Int))] },
          next_cell_id := 1, next_organism_id := 1, tick_counter := 0 }) = some w' ∧
      (∀ p : Pos, p ∈ w'.walls ↔ p ∈ World.walls
        { width := 250, height := 701,
          cells := [(0, { id := 0, x := 5, y := 6, organism_id := 0, energy := 194, age := 0 })],
          organisms := [(0, { id := 0, genome := "[Cell]", traits := [("Cell" : String)],
                              cell_ids := [0], birth_tick := 0 })],
          walls := DEFAULT_WALLS,
          food_system := { width := 250, height := 701,
                           food_grid := [(((3 : Int), (4 : Int)) : Pos)],
                           food_energy := [((((3 : Int), (4 : Int)) : Pos), (25 : Int))] },
          next_cell_id := 1, next_organism_id := 1, tick_counter := 0 }) ∧
      w'.food_system.food_grid = [(((3 : Int), (4 : Int)) : Pos)] ∧
      (∀ p : Pos, lookupEnergy w'.food_system.food_energy p =
        lookupEnergy [((((3 : Int), (4 : Int)) : Pos), (25 : Int))] p) ∧
      orgObs w' = orgObs
        { width := 250, height := 701,
          cells := [(0, { id := 0, x := 5, y := 6, organism_id := 0, energy := 194, age := 0 })],
          organisms := [(0, { id := 0, genome := "[Cell]", traits := [("Cell" : String)],
                              cell_ids := [0], birth_tick := 0 })],
          walls := DEFAULT_WALLS,
          food_system := { width := 250, height := 701,
                           food_grid := [(((3 : Int), (4 : Int)) : Pos)],
                           food_energy := [((((3 : Int), (4 : Int)) : Pos), (25 : Int))] },
          next_cell_id := 1, next_organism_id := 1, tick_counter := 0 } :=
  c1_roundtrip
    { width := 250, height := 701,
      cells := [(0, { id := 0, x := 5, y := 6, organism_id := 0, energy := 194, age := 0 })],
      organisms := [(0, { id := 0, genome := "[Cell]", traits := [("Cell" : String)],
                          cell_ids := [0], birth_tick := 0 })],
      walls := DEFAULT_WALLS,
      food_system := { width := 250, height := 701,
                       food_grid := [(((3 : Int), (4 : Int)) : Pos)],
                       food_energy := [((((3 : Int), (4 : Int)) : Pos), (25 : Int))] },
      next_cell_id := 1, next_organism_id := 1, tick_counter := 0 }
    (by decide) (by decide) (by decide) (by decide) (by decide) (by decide) (by decide)
    (by decide) (by decide) (by decide)

end JACA
